import Mathlib

/-!
Verification development for the rshim user-space transport layer
(`rshim_pcie_lf.c` and `rshim_usb.c`): a shallow embedding of the PCIe
CR-gateway register protocol, the byte-access widget, the write-posting
throttle, and the USB register/stream engine, together with theorems about
the testable properties of the specification.

Machine integers are modelled as `Nat` with explicit `% 2^32` / `% 2^64`
masking where the C code uses `uint32_t` / `uint64_t`, and return codes as
`Int`.  External library calls (`pci_write_long`, `pci_read_long`,
`libusb_*`) are driven by explicit oracles giving the result of the n-th
call; loops in the C source (spin waits) take an explicit fuel argument and
return `none` when the fuel is exhausted (i.e. the loop is still spinning).
-/

namespace Rshim


/-! ## Hardware constants (from `rshim_pcie_lf.c`) -/

def MELLANOX_ADDR : Nat := 0x58

def MELLANOX_DATA : Nat := 0x5c

def MELLANOX_CAP_READ : Nat := 0x1

def TRIO_CR_GW_LOCK : Nat := 0xe38a0

def TRIO_CR_GW_LOCK_CPY : Nat := 0xe38a4

def TRIO_CR_GW_DATA_UPPER : Nat := 0xe38ac

def TRIO_CR_GW_DATA_LOWER : Nat := 0xe38b0

def TRIO_CR_GW_CTL : Nat := 0xe38b4

def TRIO_CR_GW_ADDR_UPPER : Nat := 0xe38b8

def TRIO_CR_GW_ADDR_LOWER : Nat := 0xe38bc

def TRIO_CR_GW_LOCK_ACQUIRED : Nat := 0x80000000

def TRIO_CR_GW_LOCK_RELEASE : Nat := 0x0

def TRIO_CR_GW_BUSY : Nat := 0x60000000

def TRIO_CR_GW_TRIGGER : Nat := 0xe0000000

def TRIO_CR_GW_READ_4BYTE : Nat := 0x6

def TRIO_CR_GW_WRITE_4BYTE : Nat := 0x2

def RSH_BASE_ADDR : Nat := 0x80000000

def RSH_CHANNEL1_BASE : Nat := 0x80010000

/-- Modelled from the spec: the byte-access widget control register offset.
`RSH_BYTE_ACC_CTL` is defined in `rshim.h`, which is not part of the given
sources; the spec only calls it the widget control register, so a fixed
representative offset is used.  No claim depends on the particular value. -/
def RSH_BYTE_ACC_CTL : Nat := 0x490

/-- Modelled from the spec: the byte-access widget write-data register
offset (`RSH_BYTE_ACC_WDAT`, defined in `rshim.h`, missing from the given
sources). -/
def RSH_BYTE_ACC_WDAT : Nat := 0x498

/-- Modelled from the spec: the byte-access widget read-data register
offset (`RSH_BYTE_ACC_RDAT`, defined in `rshim.h`, missing from the given
sources). -/
def RSH_BYTE_ACC_RDAT : Nat := 0x4a0

/-- Modelled from the spec: the byte-access widget address register offset
(`RSH_BYTE_ACC_ADDR`, defined in `rshim.h`, missing from the given
sources). -/
def RSH_BYTE_ACC_ADDR : Nat := 0x4a8

/-- Modelled from the spec: the widget PENDING bit
(`RSH_BYTE_ACC_PENDING`, defined in `rshim.h`, missing from the given
sources).  The spec describes it as "the widget's PENDING bit" of the
control register, so it is modelled as a single bit mask. -/
def RSH_BYTE_ACC_PENDING : Nat := 0x20000000

/-- Modelled from the spec: the widget size/control bits
(`RSH_BYTE_ACC_SIZE`, defined in `rshim.h`, missing from the given
sources). -/
def RSH_BYTE_ACC_SIZE : Nat := 0x10000000

/-- Modelled from the spec: the widget read-trigger bits
(`RSH_BYTE_ACC_READ_TRIGGER`, defined in `rshim.h`, missing from the given
sources). -/
def RSH_BYTE_ACC_READ_TRIGGER : Nat := 0x50000000

/-- Modelled from the spec: the boot-FIFO data register offset
(`RSH_BOOT_FIFO_DATA`, defined in `rshim.h`, missing from the given
sources).  The spec calls it the boot-FIFO destination address; claims
only need it to be a fixed register offset distinct from the widget
registers. -/
def RSH_BOOT_FIFO_DATA : Nat := 0x408

/-- Modelled from the spec: the scratch register used for the forced-drain
dummy read (`RSH_SCRATCHPAD`, defined in `rshim.h`, missing from the given
sources). -/
def RSH_SCRATCHPAD : Nat := 0x20

/-- errno `ENODEV` (external constant). -/
def ENODEV : Int := 19

/-- errno `EINVAL` (external constant). -/
def EINVAL : Int := 22

/-- errno `ENXIO` (external constant). -/
def ENXIO : Int := 6

/-! ## Endianness conversion

The host is modelled as little-endian (the common case for this driver:
x86-64/aarch64 hosts), so `be64toh`/`be32toh` are byte swaps and
`le64toh`/`htole64` are the identity (modulo width masking). -/

/-- Byte `i` (0 = least significant) of `x`. -/
def byteOf (x i : Nat) : Nat := (x >>> (8 * i)) % 256

/-- 32-bit byte swap. -/
def bswap32 (x : Nat) : Nat :=
  byteOf x 0 <<< 24 ||| byteOf x 1 <<< 16 ||| byteOf x 2 <<< 8 ||| byteOf x 3

/-- 64-bit byte swap. -/
def bswap64 (x : Nat) : Nat :=
  byteOf x 0 <<< 56 ||| byteOf x 1 <<< 48 ||| byteOf x 2 <<< 40 |||
  byteOf x 3 <<< 32 ||| byteOf x 4 <<< 24 ||| byteOf x 5 <<< 16 |||
  byteOf x 6 <<< 8 ||| byteOf x 7

/-- `be32toh` on a little-endian host: byte swap of a 32-bit value. -/
def be32toh (x : Nat) : Nat := bswap32 (x % 2 ^ 32)

/-- `be64toh` on a little-endian host: byte swap of a 64-bit value. -/
def be64toh (x : Nat) : Nat := bswap64 (x % 2 ^ 64)

/-- `le64toh`/`htole64` on a little-endian host: identity on 64-bit
values. -/
def le64toh (x : Nat) : Nat := x % 2 ^ 64

/-! ## PCI capability access model

`pci_write_long` / `pci_read_long` are pciutils library calls.  They are
modelled by an oracle (`PciDev`) giving the return code of the n-th
`pci_write_long` and the value returned by the n-th `pci_read_long`,
together with the documented semantics of the hidden Mellanox capability
registers (spec §4.1): a write to `MELLANOX_DATA` latches the data value; a
write to `MELLANOX_ADDR` with the LSB clear commits the latched data as a
32-bit write of the CR-space register named by the offset, and with the LSB
set initiates a 32-bit read of that register (whose value is then fetched
from `MELLANOX_DATA` via `pci_read_long`).  Committed capability-level
operations, and the gateway-level operations they trigger through the
`TRIO_CR_GW` registers (address/data/opcode latched, doorbell on the lock
register), are recorded in an event trace. -/

/-- Observable hardware events: capability-level 32-bit CR-space accesses
and the gateway-level RShim accesses they trigger. -/
inductive HwEvent where
  /-- a 32-bit CR-space read of `offset` initiated through the capability
  registers -/
  | capRead (offset : Nat)
  /-- a 32-bit CR-space write of `value` to `offset` committed through the
  capability registers -/
  | capWrite (offset value : Nat)
  /-- a gateway-mediated 32-bit RShim read of `addr` (doorbell with the
  read opcode) -/
  | gwRead (addr : Nat)
  /-- a gateway-mediated 32-bit RShim write of `value` to `addr` (doorbell
  with the write opcode) -/
  | gwWrite (addr value : Nat)
deriving DecidableEq, Repr

/-- Oracle for the pciutils library calls: `writeRc n` is the return code
of the n-th `pci_write_long`, `readVal n` the value returned by the n-th
`pci_read_long`. -/
structure PciDev where
  writeRc : Nat → Int
  readVal : Nat → Nat

/-- State threaded through the PCI capability model: call counters for the
oracle and the latched capability/gateway register values. -/
structure PciSt where
  wIdx : Nat := 0
  rIdx : Nat := 0
  /-- value last written to `MELLANOX_DATA` -/
  latch : Nat := 0
  /-- gateway data latched via `TRIO_CR_GW_DATA_LOWER` -/
  gwData : Nat := 0
  /-- gateway address latched via `TRIO_CR_GW_ADDR_LOWER` -/
  gwAddr : Nat := 0
  /-- gateway opcode latched via `TRIO_CR_GW_CTL` -/
  gwCtl : Nat := 0
deriving DecidableEq, Repr

/-- `pci_write_long(pci_dev, offset, value)` with the capability-register
semantics described above.  A call whose oracle return code is negative
has no hardware effect. -/
def pci_write_long (d : PciDev) (s : PciSt) (offset value : Nat) :
    Int × PciSt × List HwEvent :=
  let rc := d.writeRc s.wIdx
  let s := { s with wIdx := s.wIdx + 1 }
  if rc < 0 then (rc, s, [])
  else if offset = MELLANOX_DATA then
    (rc, { s with latch := value % 2 ^ 32 }, [])
  else if offset = MELLANOX_ADDR then
    if value % 2 = 1 then
      (rc, s, [.capRead (value ^^^ 1)])
    else
      let s' :=
        if value = TRIO_CR_GW_DATA_LOWER then { s with gwData := s.latch }
        else if value = TRIO_CR_GW_ADDR_LOWER then { s with gwAddr := s.latch }
        else if value = TRIO_CR_GW_CTL then { s with gwCtl := s.latch }
        else s
      let gwEvs :=
        if value = TRIO_CR_GW_LOCK then
          if s.latch = TRIO_CR_GW_TRIGGER then
            if s'.gwCtl = TRIO_CR_GW_WRITE_4BYTE then
              [HwEvent.gwWrite s'.gwAddr s'.gwData]
            else if s'.gwCtl = TRIO_CR_GW_READ_4BYTE then
              [HwEvent.gwRead s'.gwAddr]
            else []
          else []
        else []
      (rc, s', .capWrite value s.latch :: gwEvs)
  else (rc, s, [])

/-- `pci_read_long(pci_dev, offset)`: returns the oracle value truncated to
32 bits. -/
def pci_read_long (d : PciDev) (s : PciSt) (_offset : Nat) :
    Nat × PciSt × List HwEvent :=
  (d.readVal s.rIdx % 2 ^ 32, { s with rIdx := s.rIdx + 1 }, [])

/-- `pci_cap_read` from `rshim_pcie_lf.c`: write `offset | MELLANOX_CAP_READ`
to `MELLANOX_ADDR`, then read the result from `MELLANOX_DATA`.  Returns
the value on success and the negative return code on failure. -/
def pci_cap_read (d : PciDev) (s : PciSt) (offset : Nat) :
    Except Int Nat × PciSt × List HwEvent :=
  let (rc, s, t) := pci_write_long d s MELLANOX_ADDR (offset ||| MELLANOX_CAP_READ)
  if rc < 0 then (.error rc, s, t)
  else
    let (v, s, t') := pci_read_long d s MELLANOX_DATA
    (.ok v, s, t ++ t')

/-- `pci_cap_write` from `rshim_pcie_lf.c`: write the data to
`MELLANOX_DATA`, then the target offset (LSB clear) to `MELLANOX_ADDR`. -/
def pci_cap_write (d : PciDev) (s : PciSt) (offset value : Nat) :
    Int × PciSt × List HwEvent :=
  let (rc, s, t) := pci_write_long d s MELLANOX_DATA value
  if rc < 0 then (rc, s, t)
  else
    let (rc', s, t') := pci_write_long d s MELLANOX_ADDR offset
    if rc' < 0 then (rc', s, t ++ t')
    else (0, s, t ++ t')

/-- `trio_cr_gw_lock_acquire`: spin-read `TRIO_CR_GW_LOCK` until the
acquired bit is clear, then write the acquired bit.  `fuel` bounds the
spin; `none` means the loop is still spinning after `fuel` iterations. -/
def trio_cr_gw_lock_acquire (d : PciDev) (fuel : Nat) (s : PciSt) :
    Option (Int × PciSt × List HwEvent) :=
  match fuel with
  | 0 => none
  | fuel + 1 =>
    match pci_cap_read d s TRIO_CR_GW_LOCK with
    | (.error rc, s, t) => some (rc, s, t)
    | (.ok v, s, t) =>
      if v &&& TRIO_CR_GW_LOCK_ACQUIRED ≠ 0 then
        (trio_cr_gw_lock_acquire d fuel s).map
          (fun r => (r.1, r.2.1, t ++ r.2.2))
      else
        let (rc, s, t') := pci_cap_write d s TRIO_CR_GW_LOCK TRIO_CR_GW_LOCK_ACQUIRED
        if rc ≠ 0 then some (rc, s, t ++ t')
        else some (0, s, t ++ t')

/-- `trio_cr_gw_lock_release`: write the release value to
`TRIO_CR_GW_LOCK`. -/
def trio_cr_gw_lock_release (d : PciDev) (s : PciSt) :
    Int × PciSt × List HwEvent :=
  pci_cap_write d s TRIO_CR_GW_LOCK TRIO_CR_GW_LOCK_RELEASE

/-- `trio_cr_gw_read` from `rshim_pcie_lf.c`: acquire the gateway lock,
program the address and the 4-byte read opcode, ring the doorbell, fetch
the data word, release the lock.  Any failing step propagates its return
code immediately. -/
def trio_cr_gw_read (d : PciDev) (fuel : Nat) (s : PciSt) (addr : Nat) :
    Option (Except Int Nat × PciSt × List HwEvent) :=
  match trio_cr_gw_lock_acquire d fuel s with
  | none => none
  | some (rc, s, t) =>
    if rc ≠ 0 then some (.error rc, s, t)
    else
      let (rc, s, t₁) := pci_cap_write d s TRIO_CR_GW_ADDR_LOWER addr
      if rc ≠ 0 then some (.error rc, s, t ++ t₁)
      else
        let (rc, s, t₂) := pci_cap_write d s TRIO_CR_GW_CTL TRIO_CR_GW_READ_4BYTE
        if rc ≠ 0 then some (.error rc, s, t ++ t₁ ++ t₂)
        else
          let (rc, s, t₃) := pci_cap_write d s TRIO_CR_GW_LOCK TRIO_CR_GW_TRIGGER
          if rc ≠ 0 then some (.error rc, s, t ++ t₁ ++ t₂ ++ t₃)
          else
            match pci_cap_read d s TRIO_CR_GW_DATA_LOWER with
            | (.error rc, s, t₄) => some (.error rc, s, t ++ t₁ ++ t₂ ++ t₃ ++ t₄)
            | (.ok v, s, t₄) =>
              let (rc, s, t₅) := trio_cr_gw_lock_release d s
              if rc ≠ 0 then some (.error rc, s, t ++ t₁ ++ t₂ ++ t₃ ++ t₄ ++ t₅)
              else some (.ok v, s, t ++ t₁ ++ t₂ ++ t₃ ++ t₄ ++ t₅)

/-- `trio_cr_gw_write` from `rshim_pcie_lf.c`: acquire the gateway lock,
program the data word, the address and the 4-byte write opcode, ring the
doorbell, release the lock. -/
def trio_cr_gw_write (d : PciDev) (fuel : Nat) (s : PciSt) (addr value : Nat) :
    Option (Int × PciSt × List HwEvent) :=
  match trio_cr_gw_lock_acquire d fuel s with
  | none => none
  | some (rc, s, t) =>
    if rc ≠ 0 then some (rc, s, t)
    else
      let (rc, s, t₁) := pci_cap_write d s TRIO_CR_GW_DATA_LOWER value
      if rc ≠ 0 then some (rc, s, t ++ t₁)
      else
        let (rc, s, t₂) := pci_cap_write d s TRIO_CR_GW_ADDR_LOWER addr
        if rc ≠ 0 then some (rc, s, t ++ t₁ ++ t₂)
        else
          let (rc, s, t₃) := pci_cap_write d s TRIO_CR_GW_CTL TRIO_CR_GW_WRITE_4BYTE
          if rc ≠ 0 then some (rc, s, t ++ t₁ ++ t₂ ++ t₃)
          else
            let (rc, s, t₄) := pci_cap_write d s TRIO_CR_GW_LOCK TRIO_CR_GW_TRIGGER
            if rc ≠ 0 then some (rc, s, t ++ t₁ ++ t₂ ++ t₃ ++ t₄)
            else
              let (rc, s, t₅) := trio_cr_gw_lock_release d s
              if rc ≠ 0 then some (rc, s, t ++ t₁ ++ t₂ ++ t₃ ++ t₄ ++ t₅)
              else some (0, s, t ++ t₁ ++ t₂ ++ t₃ ++ t₄ ++ t₅)

/-! ## Counting lock operations in a trace (for the bracket invariant) -/

/-- Number of committed capability writes of `value` to `offset` in a
trace. -/
def countCapWrite (offset value : Nat) (t : List HwEvent) : Nat :=
  t.countP (fun e => match e with
    | .capWrite o v => o == offset && v == value
    | _ => false)

/-- Number of lock-acquire writes (`TRIO_CR_GW_LOCK ← ACQUIRED`) in a
trace. -/
def acqCount (t : List HwEvent) : Nat :=
  countCapWrite TRIO_CR_GW_LOCK TRIO_CR_GW_LOCK_ACQUIRED t

/-- Number of lock-release writes (`TRIO_CR_GW_LOCK ← RELEASE`) in a
trace. -/
def relCount (t : List HwEvent) : Nat :=
  countCapWrite TRIO_CR_GW_LOCK TRIO_CR_GW_LOCK_RELEASE t

/-- An always-succeeding device oracle: every `pci_write_long` returns 0
and every `pci_read_long` reads 0 (lock free, widget idle). -/
def okDev : PciDev := ⟨fun _ => 0, fun _ => 0⟩

/-! ## Byte-access widget (`rshim_pcie_lf.c`) -/

/-- `rshim_byte_acc_pending_wait`: poll `RSH_BYTE_ACC_CTL` through the
gateway, looping while `read_value & (RSH_CHANNEL1_BASE +
RSH_BYTE_ACC_PENDING)` is nonzero (the mask is exactly the expression the
source uses). -/
def rshim_byte_acc_pending_wait (d : PciDev) (fuel : Nat) (s : PciSt) :
    Option (Int × PciSt × List HwEvent) :=
  match fuel with
  | 0 => none
  | fuel + 1 =>
    match trio_cr_gw_read d (fuel + 1) s (RSH_CHANNEL1_BASE + RSH_BYTE_ACC_CTL) with
    | none => none
    | some (.error rc, s, t) => some (rc, s, t)
    | some (.ok v, s, t) =>
      if v &&& (RSH_CHANNEL1_BASE + RSH_BYTE_ACC_PENDING) ≠ 0 then
        (rshim_byte_acc_pending_wait d fuel s).map
          (fun r => (r.1, r.2.1, t ++ r.2.2))
      else some (0, s, t)

/-- `rshim_byte_acc_read`: the widget 8-byte read protocol — pending wait,
program size, address and read trigger, pending wait, read the first data
word into bits 63..32, pending wait, read the second data word into bits
31..0, and convert the assembled value with `be64toh`. -/
def rshim_byte_acc_read (d : PciDev) (fuel : Nat) (s : PciSt) (addr : Nat) :
    Option (Except Int Nat × PciSt × List HwEvent) :=
  match rshim_byte_acc_pending_wait d fuel s with
  | none => none
  | some (rc, s, t) =>
    if rc ≠ 0 then some (.error rc, s, t)
    else
      match trio_cr_gw_write d fuel s (RSH_CHANNEL1_BASE + RSH_BYTE_ACC_CTL)
          RSH_BYTE_ACC_SIZE with
      | none => none
      | some (rc, s, t₁) =>
        if rc ≠ 0 then some (.error rc, s, t ++ t₁)
        else
          match trio_cr_gw_write d fuel s (RSH_CHANNEL1_BASE + RSH_BYTE_ACC_ADDR)
              addr with
          | none => none
          | some (rc, s, t₂) =>
            if rc ≠ 0 then some (.error rc, s, t ++ t₁ ++ t₂)
            else
              match trio_cr_gw_write d fuel s (RSH_CHANNEL1_BASE + RSH_BYTE_ACC_CTL)
                  RSH_BYTE_ACC_READ_TRIGGER with
              | none => none
              | some (rc, s, t₃) =>
                if rc ≠ 0 then some (.error rc, s, t ++ t₁ ++ t₂ ++ t₃)
                else
                  match rshim_byte_acc_pending_wait d fuel s with
                  | none => none
                  | some (rc, s, t₄) =>
                    if rc ≠ 0 then some (.error rc, s, t ++ t₁ ++ t₂ ++ t₃ ++ t₄)
                    else
                      match trio_cr_gw_read d fuel s
                          (RSH_CHANNEL1_BASE + RSH_BYTE_ACC_RDAT) with
                      | none => none
                      | some (.error rc, s, t₅) =>
                        some (.error rc, s, t ++ t₁ ++ t₂ ++ t₃ ++ t₄ ++ t₅)
                      | some (.ok v₁, s, t₅) =>
                        let readResult := v₁ <<< 32
                        match rshim_byte_acc_pending_wait d fuel s with
                        | none => none
                        | some (rc, s, t₆) =>
                          if rc ≠ 0 then
                            some (.error rc, s, t ++ t₁ ++ t₂ ++ t₃ ++ t₄ ++ t₅ ++ t₆)
                          else
                            match trio_cr_gw_read d fuel s
                                (RSH_CHANNEL1_BASE + RSH_BYTE_ACC_RDAT) with
                            | none => none
                            | some (.error rc, s, t₇) =>
                              some (.error rc, s,
                                t ++ t₁ ++ t₂ ++ t₃ ++ t₄ ++ t₅ ++ t₆ ++ t₇)
                            | some (.ok v₂, s, t₇) =>
                              some (.ok (be64toh (readResult ||| v₂)), s,
                                t ++ t₁ ++ t₂ ++ t₃ ++ t₄ ++ t₅ ++ t₆ ++ t₇)

/-- `rshim_byte_acc_write`: the widget 8-byte write protocol — pending
wait, program size, address, size again, write the upper data word from
`value >> 32`, pending wait, write the lower data word. -/
def rshim_byte_acc_write (d : PciDev) (fuel : Nat) (s : PciSt) (addr value : Nat) :
    Option (Int × PciSt × List HwEvent) :=
  match rshim_byte_acc_pending_wait d fuel s with
  | none => none
  | some (rc, s, t) =>
    if rc ≠ 0 then some (rc, s, t)
    else
      match trio_cr_gw_write d fuel s (RSH_CHANNEL1_BASE + RSH_BYTE_ACC_CTL)
          RSH_BYTE_ACC_SIZE with
      | none => none
      | some (rc, s, t₁) =>
        if rc ≠ 0 then some (rc, s, t ++ t₁)
        else
          match trio_cr_gw_write d fuel s (RSH_CHANNEL1_BASE + RSH_BYTE_ACC_ADDR)
              addr with
          | none => none
          | some (rc, s, t₂) =>
            if rc ≠ 0 then some (rc, s, t ++ t₁ ++ t₂)
            else
              match trio_cr_gw_write d fuel s (RSH_CHANNEL1_BASE + RSH_BYTE_ACC_CTL)
                  RSH_BYTE_ACC_SIZE with
              | none => none
              | some (rc, s, t₃) =>
                if rc ≠ 0 then some (rc, s, t ++ t₁ ++ t₂ ++ t₃)
                else
                  match trio_cr_gw_write d fuel s
                      (RSH_CHANNEL1_BASE + RSH_BYTE_ACC_WDAT)
                      ((value >>> 32) % 2 ^ 32) with
                  | none => none
                  | some (rc, s, t₄) =>
                    if rc ≠ 0 then some (rc, s, t ++ t₁ ++ t₂ ++ t₃ ++ t₄)
                    else
                      match rshim_byte_acc_pending_wait d fuel s with
                      | none => none
                      | some (rc, s, t₅) =>
                        if rc ≠ 0 then some (rc, s, t ++ t₁ ++ t₂ ++ t₃ ++ t₄ ++ t₅)
                        else
                          match trio_cr_gw_write d fuel s
                              (RSH_CHANNEL1_BASE + RSH_BYTE_ACC_WDAT)
                              (value % 2 ^ 32) with
                          | none => none
                          | some (rc, s, t₆) =>
                            if rc ≠ 0 then
                              some (rc, s, t ++ t₁ ++ t₂ ++ t₃ ++ t₄ ++ t₅ ++ t₆)
                            else
                              some (0, s, t ++ t₁ ++ t₂ ++ t₃ ++ t₄ ++ t₅ ++ t₆)

/-- `rshim_boot_fifo_write`: push an 8-byte word into the boot FIFO as two
raw 32-bit gateway writes to the same address — high word (`value >> 32`)
first, then low word. -/
def rshim_boot_fifo_write (d : PciDev) (fuel : Nat) (s : PciSt) (addr value : Nat) :
    Option (Int × PciSt × List HwEvent) :=
  match trio_cr_gw_write d fuel s addr ((value >>> 32) % 2 ^ 32) with
  | none => none
  | some (rc, s, t) =>
    if rc ≠ 0 then some (rc, s, t)
    else
      match trio_cr_gw_write d fuel s addr (value % 2 ^ 32) with
      | none => none
      | some (rc, s, t₁) =>
        if rc ≠ 0 then some (rc, s, t ++ t₁)
        else some (0, s, t ++ t₁)

/-! ## PCIe backend read/write (`rshim_pcie_lf.c`) -/

/-- PCIe backend state: the `has_rshim` capability flag of the backend and
the per-backend `write_count` (a `u8` in the source), alongside the PCI
capability model state. -/
structure PcieSt where
  has_rshim : Bool := true
  write_count : Nat := 0
  pci : PciSt := {}
deriving DecidableEq, Repr

/-- `rshim_pcie_read`: reset the write counter, compute the byte-swapped
RShim bus address from channel and offset, and perform a widget 8-byte
read. -/
def rshim_pcie_read (d : PciDev) (fuel : Nat) (s : PcieSt) (chan addr : Nat) :
    Option (Except Int Nat × PcieSt × List HwEvent) :=
  if !s.has_rshim then some (.error (-ENODEV), s, [])
  else
    let s := { s with write_count := 0 }
    let addr := (RSH_BASE_ADDR + (addr ||| (chan <<< 16) % 2 ^ 32)) % 2 ^ 32
    let addr := be32toh addr
    (rshim_byte_acc_read d fuel s.pci addr).map
      (fun r => (r.1, { s with pci := r.2.1 }, r.2.2))

/-- `rshim_pcie_write`: compute the RShim bus address (byte-swapped except
for the boot-FIFO fast path), convert the value with `be64toh`, force a
drain (barrier + dummy scratch-register read) when the write counter has
reached 7, bump the counter, and dispatch to the boot-FIFO fast path or
the widget write.  The `__sync_synchronize` barrier has no observable
effect in this model. -/
def rshim_pcie_write (d : PciDev) (fuel : Nat) (s : PcieSt) (chan addr value : Nat) :
    Option (Int × PcieSt × List HwEvent) :=
  if !s.has_rshim then some (-ENODEV, s, [])
  else
    let is_boot_stream := addr = RSH_BOOT_FIFO_DATA
    let addr := (RSH_BASE_ADDR + (addr ||| (chan <<< 16) % 2 ^ 32)) % 2 ^ 32
    let addr := if !is_boot_stream then be32toh addr else addr
    let value := be64toh value
    let drained :=
      if s.write_count = 7 then
        (rshim_pcie_read d fuel s chan RSH_SCRATCHPAD).map
          (fun r => (r.2.1, r.2.2))
      else some (s, [])
    match drained with
    | none => none
    | some (s, t₀) =>
      let s := { s with write_count := (s.write_count + 1) % 256 }
      if is_boot_stream then
        (rshim_boot_fifo_write d fuel s.pci addr value).map
          (fun r => (r.1, { s with pci := r.2.1 }, t₀ ++ r.2.2))
      else
        (rshim_byte_acc_write d fuel s.pci addr value).map
          (fun r => (r.1, { s with pci := r.2.1 }, t₀ ++ r.2.2))

/-- Device oracle on which the fourth `pci_write_long` (the data half of
the capability write programming `TRIO_CR_GW_ADDR_LOWER`, issued right
after the lock has been acquired) fails with -1; everything else succeeds
and the lock always reads free. -/
def c1FailDev : PciDev := ⟨fun n => if n = 3 then -1 else 0, fun _ => 0⟩

/-- Device oracle exhibiting the pending-wait mask defect: all writes
succeed, the lock always reads free (even read indices), and every read of
the widget control register (odd read indices) returns `0x80000000` — a
value whose `RSH_BYTE_ACC_PENDING` bit is clear but whose bit 31 is set. -/
def c4BugDev : PciDev :=
  ⟨fun _ => 0, fun n => if n % 2 = 1 then 0x80000000 else 0⟩

/-- Device oracle for the widget-read theorem: all writes succeed, the lock
always reads free, the control register reads idle, and the two reads of
the widget read-data register (the 9th and 13th `pci_read_long` of the
operation) return `v₁` and `v₂` respectively. -/
def c7ReadDev (v₁ v₂ : Nat) : PciDev :=
  ⟨fun _ => 0, fun n => if n = 8 then v₁ else if n = 12 then v₂ else 0⟩

/-! ## Sequences of PCIe backend operations (for the write-posting
throttle, spec §4.1/§8) -/

/-- A backend register operation: `rshim_pcie_read` or `rshim_pcie_write`
with its arguments. -/
inductive PcieOp where
  | rd (chan addr : Nat)
  | wr (chan addr value : Nat)
deriving DecidableEq, Repr

/-- Whether an operation is a register write. -/
def PcieOp.isWr : PcieOp → Bool
  | .wr _ _ _ => true
  | _ => false

/-- One backend operation against the always-ready device `okDev`,
returning the post-state and the hardware trace it emitted. -/
def pcieStep (s : PcieSt) : PcieOp → Option (PcieSt × List HwEvent)
  | .rd chan addr =>
    (rshim_pcie_read okDev 1 s chan addr).map (fun r => (r.2.1, r.2.2))
  | .wr chan addr value =>
    (rshim_pcie_write okDev 1 s chan addr value).map (fun r => (r.2.1, r.2.2))

/-- One executed operation of a run: the operation, the state it started
from, the hardware trace it emitted and the state it left behind. -/
structure RunEntry where
  op : PcieOp
  pre : PcieSt
  seg : List HwEvent
  post : PcieSt
deriving DecidableEq, Repr

/-- Execute a list of backend operations, recording one `RunEntry` per
operation. -/
def pcieRun (s : PcieSt) : List PcieOp → Option (List RunEntry)
  | [] => some []
  | op :: ops =>
    match pcieStep s op with
    | none => none
    | some (s', t) => (pcieRun s' ops).map (fun l => ⟨op, s, t, s'⟩ :: l)

/-- Whether a trace contains the forced-drain dummy read: the drain is the
only part of a register *write* operation that reads the widget read-data
register through the gateway. -/
def hasDrainRead (t : List HwEvent) : Bool :=
  t.any (fun e => match e with
    | .gwRead a => a == RSH_CHANNEL1_BASE + RSH_BYTE_ACC_RDAT
    | _ => false)

/-! ## USB backend (`rshim_usb.c`)

The libusb transfer-status enum and error codes are external library
constants.  `RSH_SFLG_READING`/`RSH_SFLG_WRITING` (bits of
`bd->spin_flags`) are modelled as the two booleans `reading`/`writing`;
`rshim_notify` calls are recorded in a notification list;
`libusb_submit_transfer` is driven by an explicit `submitRc` oracle
argument (its return code), and the number of submit calls an operation
makes is recorded.  Buffer contents are out of scope (the spec covers the
control flow, flags and notifications). -/

def LIBUSB_TRANSFER_COMPLETED : Int := 0

def LIBUSB_TRANSFER_ERROR : Int := 1

def LIBUSB_TRANSFER_TIMED_OUT : Int := 2

def LIBUSB_TRANSFER_CANCELLED : Int := 3

def LIBUSB_TRANSFER_STALL : Int := 4

def LIBUSB_TRANSFER_NO_DEVICE : Int := 5

def LIBUSB_TRANSFER_OVERFLOW : Int := 6

def LIBUSB_ERROR_TIMEOUT : Int := -7

def READ_RETRIES : Nat := 5

def WRITE_RETRIES : Nat := 5

/-- Modelled from the spec: the notification events delivered to the
external registry (`RSH_EVENT_*` in `rshim.h`, which is not part of the
given sources); the spec names input-available, output-drained and
fifo-error events. -/
inductive RshEvent where
  | fifoInput
  | fifoOutput
  | fifoErr
deriving DecidableEq, Repr

/-- USB backend state relevant to the stream engine: retry counters, the
interrupt/bulk mode flag, the two spin flags, the interrupt scratch
buffer, the read-buffer bookkeeping and the capability flags. -/
structure UsbSt where
  read_or_intr_retries : Nat := 0
  write_retries : Nat := 0
  read_urb_is_intr : Bool := false
  reading : Bool := false
  writing : Bool := false
  intr_buf : Nat := 0
  read_buf_bytes : Nat := 0
  read_buf_next : Nat := 0
  has_rshim : Bool := true
  has_tm : Bool := true
  drop_mode : Bool := false
deriving DecidableEq, Repr

/-- A completed transfer as seen by a completion callback: its status and
the number of bytes actually transferred. -/
structure Urb where
  status : Int
  actual_length : Nat
deriving DecidableEq, Repr

/-- Result of a completion callback: the new backend state, the
`rshim_notify` calls it made (event, code), and how many times it called
`libusb_submit_transfer`. -/
structure CbResult where
  st : UsbSt
  notifications : List (RshEvent × Int)
  submits : Nat
deriving DecidableEq, Repr

/-- `rshim_usb_fifo_read_callback`: clear the READING flag, then dispatch
on the transfer status.  The C `switch` falls through from the transient
statuses (when the retry guard fails) into `case
LIBUSB_TRANSFER_CANCELLED: break;`, which is translated here as returning
with no notification and no resubmission. -/
def rshim_usb_fifo_read_callback (s : UsbSt) (urb : Urb) (submitRc : Int) :
    CbResult :=
  let s := { s with reading := false }
  if urb.status = LIBUSB_TRANSFER_COMPLETED then
    let s := if !s.read_urb_is_intr then
        { s with intr_buf := 0, read_buf_bytes := urb.actual_length,
                 read_buf_next := 0 }
      else s
    ⟨s, [(.fifoInput, 0)], 0⟩
  else if urb.status = LIBUSB_TRANSFER_NO_DEVICE then
    ⟨s, [], 0⟩
  else if urb.status = LIBUSB_TRANSFER_TIMED_OUT ∨
      urb.status = LIBUSB_TRANSFER_STALL ∨
      urb.status = LIBUSB_TRANSFER_OVERFLOW then
    if s.read_or_intr_retries < READ_RETRIES ∧ urb.actual_length = 0 then
      let s := { s with read_or_intr_retries := s.read_or_intr_retries + 1 }
      if submitRc ≠ 0 then
        ⟨s, [(.fifoErr, if submitRc > 0 then -submitRc else submitRc)], 1⟩
      else
        ⟨{ s with reading := true }, [], 1⟩
    else
      ⟨s, [], 0⟩
  else if urb.status = LIBUSB_TRANSFER_CANCELLED then
    ⟨s, [], 0⟩
  else
    ⟨s, [(.fifoErr, if urb.status > 0 then -urb.status else urb.status)], 0⟩

/-- `rshim_usb_fifo_write_callback`: clear the WRITING flag, then dispatch
on the transfer status, with the same fall-through structure as the read
callback (the write-completion condition broadcast has no observable
effect in this model). -/
def rshim_usb_fifo_write_callback (s : UsbSt) (urb : Urb) (submitRc : Int) :
    CbResult :=
  let s := { s with writing := false }
  if urb.status = LIBUSB_TRANSFER_COMPLETED then
    ⟨s, [(.fifoOutput, 0)], 0⟩
  else if urb.status = LIBUSB_TRANSFER_NO_DEVICE then
    ⟨s, [], 0⟩
  else if urb.status = LIBUSB_TRANSFER_TIMED_OUT ∨
      urb.status = LIBUSB_TRANSFER_STALL ∨
      urb.status = LIBUSB_TRANSFER_OVERFLOW then
    if s.write_retries < WRITE_RETRIES ∧ urb.actual_length = 0 then
      let s := { s with write_retries := s.write_retries + 1 }
      if submitRc ≠ 0 then
        ⟨s, [(.fifoErr, if submitRc > 0 then -submitRc else submitRc)], 1⟩
      else
        ⟨{ s with writing := true }, [], 1⟩
    else
      ⟨s, [], 0⟩
  else if urb.status = LIBUSB_TRANSFER_CANCELLED then
    ⟨s, [], 0⟩
  else
    ⟨s, [(.fifoErr, if urb.status > 0 then -urb.status else urb.status)], 0⟩

/-- `rshim_usb_fifo_read`: guard on the capability flags and drop mode,
select interrupt or bulk mode from the interrupt scratch count and the
buffered bytes, set the READING flag, reset the retry counter, submit,
and clear the flag again if submission fails.  Returns the new state, the
number of submit calls, and the (always empty) notification list — the
function never calls `rshim_notify`. -/
def rshim_usb_fifo_read (s : UsbSt) (submitRc : Int) :
    UsbSt × Nat × List (RshEvent × Int) :=
  if !s.has_rshim || !s.has_tm || s.drop_mode then (s, 0, [])
  else if s.intr_buf ≠ 0 ∨ s.read_buf_bytes ≠ 0 then
    let s := { s with reading := true, read_urb_is_intr := false,
                      read_or_intr_retries := 0 }
    if submitRc ≠ 0 then ({ s with reading := false }, 1, [])
    else (s, 1, [])
  else
    let s := { s with reading := true, read_urb_is_intr := true,
                      read_or_intr_retries := 0 }
    if submitRc ≠ 0 then ({ s with reading := false }, 1, [])
    else (s, 1, [])

/-- `rshim_usb_fifo_write`: guard on the capability flags, return success
immediately in drop mode, reset the retry counter, submit, and set the
WRITING flag only when submission succeeded (clearing it and returning -1
on a failed submission).  A count that is not a multiple of 8 only logs a
warning. -/
def rshim_usb_fifo_write (s : UsbSt) (_count : Nat) (submitRc : Int) :
    Int × UsbSt × Nat × List (RshEvent × Int) :=
  if !s.has_rshim || !s.has_tm then (-ENODEV, s, 0, [])
  else if s.drop_mode then (0, s, 0, [])
  else
    let s := { s with write_retries := 0 }
    if submitRc ≠ 0 then (-1, { s with writing := false }, 1, [])
    else (0, { s with writing := true }, 1, [])

/-- Modelled from the spec: the device kinds of the backend stream contract
(`RSH_DEV_TYPE_*` in `rshim.h`, not part of the given sources); the spec
names a TMFIFO stream kind and a boot push kind. -/
inductive DevType where
  | tmfifo
  | boot
  | other
deriving DecidableEq, Repr

/-- `rshim_usb_backend_read`: route a TMFIFO stream read to
`rshim_usb_fifo_read` and return 0; any other device type returns
`-EINVAL`. -/
def rshim_usb_backend_read (s : UsbSt) (devtype : DevType) (_count : Nat)
    (submitRc : Int) : Int × UsbSt × Nat × List (RshEvent × Int) :=
  match devtype with
  | .tmfifo =>
    let r := rshim_usb_fifo_read s submitRc
    (0, r.1, r.2.1, r.2.2)
  | _ => (-EINVAL, s, 0, [])

/-- `rshim_usb_boot_write`: a blocking bulk transfer; on success or
timeout return the number of bytes actually transferred, otherwise return
the library error code. -/
def rshim_usb_boot_write (_count : Nat) (bulkRc transferred : Int) : Int :=
  if bulkRc = 0 ∨ bulkRc = LIBUSB_ERROR_TIMEOUT then transferred
  else bulkRc

/-- `rshim_usb_read_rshim`: a blocking 8-byte vendor control read.  `rc`
is the libusb result (byte count, or a negative error), `wire` the
little-endian payload the device produced.  Returns the status code and
the value (`le64toh` of the wire data, which the C code stores through
the result pointer before checking the count; `none` when the no-device
guard fires and the result is never written). -/
def rshim_usb_read_rshim (has_rshim : Bool) (rc : Int) (wire : Nat) :
    Int × Option Nat :=
  if !has_rshim then (-ENODEV, none)
  else
    let result := le64toh wire
    if rc = 8 then (0, some result)
    else (if 0 ≤ rc then (if 8 < rc then -EINVAL else - ENXIO) else rc,
      some result)

/-- `rshim_usb_write_rshim`: a blocking 8-byte vendor control write of
`htole64 value` (the wire payload is `none` when the no-device guard fires
before the payload is staged); same status-code mapping as the read. -/
def rshim_usb_write_rshim (has_rshim : Bool) (value : Nat) (rc : Int) :
    Int × Option Nat :=
  if !has_rshim then (-ENODEV, none)
  else
    let wire := le64toh value
    if rc = 8 then (0, some wire)
    else (if 0 ≤ rc then (if 8 < rc then -EINVAL else - ENXIO) else rc,
      some wire)

/-! ## Outstanding-transfer discipline (C8)

The stream engine is closed under four kinds of events: the two
submission entry points and the two completion callbacks.  The number of
transfers currently outstanding per direction is ghost state: it grows by
one exactly when a `libusb_submit_transfer` call succeeds and shrinks by
one when a completion callback runs.  The transport library only
completes in-flight transfers (a completion requires one outstanding),
and — as the spec states — the upper layer only submits when the
direction's flag is clear; both appear as the validity condition on
traces. -/

/-- System state: the backend state plus the ghost counts of outstanding
read/interrupt and write transfers. -/
structure SysSt where
  usb : UsbSt
  outR : Nat
  outW : Nat
deriving DecidableEq, Repr

/-- An event of the stream engine: a submission entry point or a
completion callback, each carrying the oracle results it consumes. -/
inductive UsbOp where
  | submitRead (submitRc : Int)
  | submitWrite (count : Nat) (submitRc : Int)
  | completeRead (status : Int) (len : Nat) (submitRc : Int)
  | completeWrite (status : Int) (len : Nat) (submitRc : Int)
deriving DecidableEq, Repr

/-- The effect of one event: run the corresponding source function and
update the ghost outstanding counts (a successful submit call adds one
outstanding transfer; a completion consumes one, plus one if it
successfully resubmitted). -/
def sysStep (s : SysSt) : UsbOp → SysSt
  | .submitRead rc =>
    let r := rshim_usb_fifo_read s.usb rc
    ⟨r.1, s.outR + (if r.2.1 = 1 ∧ rc = 0 then 1 else 0), s.outW⟩
  | .submitWrite count rc =>
    let r := rshim_usb_fifo_write s.usb count rc
    ⟨r.2.1, s.outR, s.outW + (if r.2.2.1 = 1 ∧ rc = 0 then 1 else 0)⟩
  | .completeRead st len rc =>
    let r := rshim_usb_fifo_read_callback s.usb ⟨st, len⟩ rc
    ⟨r.st, s.outR - 1 + (if r.submits = 1 ∧ rc = 0 then 1 else 0), s.outW⟩
  | .completeWrite st len rc =>
    let r := rshim_usb_fifo_write_callback s.usb ⟨st, len⟩ rc
    ⟨r.st, s.outR, s.outW - 1 + (if r.submits = 1 ∧ rc = 0 then 1 else 0)⟩

/-- Validity of one event in a state: submissions only happen with the
direction's flag clear (the claimed submission discipline), completions
only for an in-flight transfer. -/
def okOp (s : SysSt) : UsbOp → Prop
  | .submitRead _ => s.usb.reading = false
  | .submitWrite _ _ => s.usb.writing = false
  | .completeRead _ _ _ => s.outR = 1
  | .completeWrite _ _ _ => s.outW = 1

/-- The busy-flag invariant: each direction has at most one outstanding
transfer, and the READING/WRITING flags track exactly whether one is
outstanding. -/
def UsbInv (s : SysSt) : Prop :=
  (s.usb.reading = true ↔ s.outR = 1) ∧ (s.usb.writing = true ↔ s.outW = 1) ∧
  s.outR ≤ 1 ∧ s.outW ≤ 1

/-- Run a list of events. -/
def sysRun (s : SysSt) : List UsbOp → SysSt
  | [] => s
  | op :: ops => sysRun (sysStep s op) ops

/-- A trace is valid from `s` when every event is valid in the state it
runs in. -/
def ValidFrom (s : SysSt) : List UsbOp → Prop
  | [] => True
  | op :: ops => okOp s op ∧ ValidFrom (sysStep s op) ops

/-! ## Lemmas: lock-write counting through the capability primitives -/

theorem countCapWrite_append (o w : Nat) (t t' : List HwEvent) :
    countCapWrite o w (t ++ t') = countCapWrite o w t + countCapWrite o w t' := by
  simp [countCapWrite, List.countP_append]

theorem countCapWrite_pci_cap_read (d : PciDev) (s : PciSt) (off o w : Nat)
    (hodd : (off ||| MELLANOX_CAP_READ) % 2 = 1) :
    countCapWrite o w (pci_cap_read d s off).2.2 = 0 := by
  unfold pci_cap_read pci_write_long pci_read_long
  by_cases h1 : d.writeRc s.wIdx < 0 <;>
    simp [h1, hodd, countCapWrite, MELLANOX_DATA, MELLANOX_ADDR]

theorem countCapWrite_pci_cap_write (d : PciDev) (s : PciSt) (off v o w : Nat)
    (h₂ : ¬ off % 2 = 1) :
    countCapWrite o w (pci_cap_write d s off v).2.2 =
      if (pci_cap_write d s off v).1 = 0 ∧ o = off ∧ w = v % 2 ^ 32 then 1 else 0 := by
  unfold pci_cap_write pci_write_long
  by_cases h1 : d.writeRc s.wIdx < 0
  · have h1' : d.writeRc s.wIdx ≠ 0 := by omega
    simp [h1, h1', countCapWrite, MELLANOX_DATA, MELLANOX_ADDR]
  · by_cases h2 : d.writeRc (s.wIdx + 1) < 0
    · have h2' : d.writeRc (s.wIdx + 1) ≠ 0 := by omega
      simp [h1, h2, h2', countCapWrite, MELLANOX_DATA, MELLANOX_ADDR]
    · simp [h1, h2, h₂, countCapWrite, MELLANOX_DATA, MELLANOX_ADDR]
      split_ifs <;>
        simp_all [countCapWrite, List.countP_cons, beq_iff_eq] <;> omega

theorem lockCounts_cap_write_other (d : PciDev) (s : PciSt) (off v : Nat)
    (h : off ≠ TRIO_CR_GW_LOCK) (h₂ : ¬ off % 2 = 1) :
    acqCount (pci_cap_write d s off v).2.2 = 0 ∧
      relCount (pci_cap_write d s off v).2.2 = 0 := by
  constructor <;> simp only [acqCount, relCount] <;>
    rw [countCapWrite_pci_cap_write _ _ _ _ _ _ h₂] <;>
    simp [Ne.symm h]

theorem lockCounts_cap_write_trigger (d : PciDev) (s : PciSt) :
    acqCount (pci_cap_write d s TRIO_CR_GW_LOCK TRIO_CR_GW_TRIGGER).2.2 = 0 ∧
      relCount (pci_cap_write d s TRIO_CR_GW_LOCK TRIO_CR_GW_TRIGGER).2.2 = 0 := by
  constructor <;> simp only [acqCount, relCount] <;>
    rw [countCapWrite_pci_cap_write _ _ _ _ _ _ (by decide)] <;>
    simp [TRIO_CR_GW_LOCK_ACQUIRED, TRIO_CR_GW_LOCK_RELEASE, TRIO_CR_GW_TRIGGER]

theorem lockCounts_cap_write_acquire (d : PciDev) (s : PciSt) :
    acqCount (pci_cap_write d s TRIO_CR_GW_LOCK TRIO_CR_GW_LOCK_ACQUIRED).2.2 =
      (if (pci_cap_write d s TRIO_CR_GW_LOCK TRIO_CR_GW_LOCK_ACQUIRED).1 = 0
        then 1 else 0) ∧
    relCount (pci_cap_write d s TRIO_CR_GW_LOCK TRIO_CR_GW_LOCK_ACQUIRED).2.2 = 0 := by
  constructor <;> simp only [acqCount, relCount] <;>
    rw [countCapWrite_pci_cap_write _ _ _ _ _ _ (by decide)] <;>
    simp [TRIO_CR_GW_LOCK_ACQUIRED, TRIO_CR_GW_LOCK_RELEASE]

theorem lockCounts_release (d : PciDev) (s : PciSt) :
    relCount (trio_cr_gw_lock_release d s).2.2 =
      (if (trio_cr_gw_lock_release d s).1 = 0 then 1 else 0) ∧
    acqCount (trio_cr_gw_lock_release d s).2.2 = 0 := by
  rw [trio_cr_gw_lock_release]
  constructor <;> simp only [acqCount, relCount] <;>
    rw [countCapWrite_pci_cap_write _ _ _ _ _ _ (by decide)] <;>
    simp [TRIO_CR_GW_LOCK_ACQUIRED, TRIO_CR_GW_LOCK_RELEASE]

theorem lockCounts_cap_read (d : PciDev) (s : PciSt) (off : Nat)
    (hodd : (off ||| MELLANOX_CAP_READ) % 2 = 1) :
    acqCount (pci_cap_read d s off).2.2 = 0 ∧
      relCount (pci_cap_read d s off).2.2 = 0 :=
  ⟨countCapWrite_pci_cap_read d s off _ _ hodd,
   countCapWrite_pci_cap_read d s off _ _ hodd⟩

theorem pci_cap_read_error_neg (d : PciDev) (s : PciSt) (off : Nat) (rc : Int)
    (s' : PciSt) (t : List HwEvent)
    (hodd : (off ||| MELLANOX_CAP_READ) % 2 = 1)
    (h : pci_cap_read d s off = (.error rc, s', t)) : rc < 0 := by
  unfold pci_cap_read pci_write_long pci_read_long at h
  by_cases h1 : d.writeRc s.wIdx < 0 <;>
    simp [h1, hodd, MELLANOX_DATA, MELLANOX_ADDR] at h
  omega

/-- The spin-acquire issues exactly one lock-acquire write when it returns
success, none on failure, and never issues a release write. -/
theorem trio_cr_gw_lock_acquire_counts (d : PciDev) :
    ∀ (fuel : Nat) (s : PciSt) (r : Int × PciSt × List HwEvent),
      trio_cr_gw_lock_acquire d fuel s = some r →
      acqCount r.2.2 = (if r.1 = 0 then 1 else 0) ∧ relCount r.2.2 = 0 := by
  intro fuel
  induction fuel with
  | zero => intro s r h; simp [trio_cr_gw_lock_acquire] at h
  | succ n ih =>
    intro s r h
    unfold trio_cr_gw_lock_acquire at h
    split at h
    next rc s' t heq =>
      obtain rfl := (Option.some.inj h).symm
      have hcnt := lockCounts_cap_read d s TRIO_CR_GW_LOCK (by decide)
      rw [heq] at hcnt
      have hneg := pci_cap_read_error_neg d s _ _ _ _ (by decide) heq
      have hne : rc ≠ 0 := by omega
      simpa [hne] using hcnt
    next v s' t heq =>
      have hcnt := lockCounts_cap_read d s TRIO_CR_GW_LOCK (by decide)
      rw [heq] at hcnt
      by_cases hbusy : v &&& TRIO_CR_GW_LOCK_ACQUIRED ≠ 0
      · rw [if_pos hbusy] at h
        rcases Option.map_eq_some'.mp h with ⟨a, ha, rfl⟩
        have hha := ih s' a ha
        constructor
        · show acqCount (t ++ a.2.2) = _
          rw [acqCount, countCapWrite_append, ← acqCount, ← acqCount,
            hcnt.1, hha.1]
          simp
        · show relCount (t ++ a.2.2) = 0
          rw [relCount, countCapWrite_append, ← relCount, ← relCount,
            hcnt.2, hha.2]
      · rw [if_neg hbusy] at h
        split at h
        next rc s'' t' hcw =>
          have hcwc := lockCounts_cap_write_acquire d s'
          rw [hcw] at hcwc
          by_cases hrc : rc = 0
          · rw [if_neg (by simpa using hrc)] at h
            obtain rfl := (Option.some.inj h).symm
            refine ⟨?_, ?_⟩
            · show acqCount (t ++ _) = _
              rw [acqCount, countCapWrite_append, ← acqCount, ← acqCount,
                hcnt.1, hcwc.1]
              simp [hrc]
            · show relCount (t ++ _) = 0
              rw [relCount, countCapWrite_append, ← relCount, ← relCount,
                hcnt.2, hcwc.2]
          · rw [if_pos (by simpa using hrc)] at h
            obtain rfl := (Option.some.inj h).symm
            refine ⟨?_, ?_⟩
            · show acqCount (t ++ _) = _
              rw [acqCount, countCapWrite_append, ← acqCount, ← acqCount,
                hcnt.1, hcwc.1]
              simp [hrc]
            · show relCount (t ++ _) = 0
              rw [relCount, countCapWrite_append, ← relCount, ← relCount,
                hcnt.2, hcwc.2]

/-- Lock-write accounting for `trio_cr_gw_write`: one acquire and one
release on success; no release on any failure path. -/
theorem trio_cr_gw_write_lockCounts (d : PciDev) (fuel : Nat) (s : PciSt)
    (addr value : Nat) (r : Int × PciSt × List HwEvent)
    (h : trio_cr_gw_write d fuel s addr value = some r) :
    (r.1 = 0 → acqCount r.2.2 = 1 ∧ relCount r.2.2 = 1) ∧
    (r.1 ≠ 0 → relCount r.2.2 = 0) := by
  unfold trio_cr_gw_write at h
  split at h
  next hacq => exact absurd h (by simp)
  next rc0 s0 t0 hacq =>
    have h0 := trio_cr_gw_lock_acquire_counts d fuel s _ hacq
    simp only at h0
    by_cases hrc0 : rc0 = 0
    case neg =>
      rw [if_pos hrc0] at h
      obtain rfl := (Option.some.inj h).symm
      exact ⟨fun hc => absurd hc hrc0, fun _ => h0.2⟩
    case pos =>
      rw [if_neg (by simpa using hrc0)] at h
      simp only [hrc0, if_pos] at h0
      split at h
      next rc1 s1 t1 hcw1 =>
        have c1 := lockCounts_cap_write_other d s0 TRIO_CR_GW_DATA_LOWER value
          (by decide) (by decide)
        rw [hcw1] at c1; simp only at c1
        by_cases hrc1 : rc1 = 0
        case neg =>
          rw [if_pos hrc1] at h
          obtain rfl := (Option.some.inj h).symm
          refine ⟨fun hc => absurd hc hrc1, fun _ => ?_⟩
          simp only [relCount, countCapWrite_append] at *
          omega
        case pos =>
          rw [if_neg (by simpa using hrc1)] at h
          split at h
          next rc2 s2 t2 hcw2 =>
            have c2 := lockCounts_cap_write_other d s1 TRIO_CR_GW_ADDR_LOWER addr
              (by decide) (by decide)
            rw [hcw2] at c2; simp only at c2
            by_cases hrc2 : rc2 = 0
            case neg =>
              rw [if_pos hrc2] at h
              obtain rfl := (Option.some.inj h).symm
              refine ⟨fun hc => absurd hc hrc2, fun _ => ?_⟩
              simp only [relCount, countCapWrite_append] at *
              omega
            case pos =>
              rw [if_neg (by simpa using hrc2)] at h
              split at h
              next rc3 s3 t3 hcw3 =>
                have c3 := lockCounts_cap_write_other d s2 TRIO_CR_GW_CTL
                  TRIO_CR_GW_WRITE_4BYTE (by decide) (by decide)
                rw [hcw3] at c3; simp only at c3
                by_cases hrc3 : rc3 = 0
                case neg =>
                  rw [if_pos hrc3] at h
                  obtain rfl := (Option.some.inj h).symm
                  refine ⟨fun hc => absurd hc hrc3, fun _ => ?_⟩
                  simp only [relCount, countCapWrite_append] at *
                  omega
                case pos =>
                  rw [if_neg (by simpa using hrc3)] at h
                  split at h
                  next rc4 s4 t4 hcw4 =>
                    have c4 := lockCounts_cap_write_trigger d s3
                    rw [hcw4] at c4; simp only at c4
                    by_cases hrc4 : rc4 = 0
                    case neg =>
                      rw [if_pos hrc4] at h
                      obtain rfl := (Option.some.inj h).symm
                      refine ⟨fun hc => absurd hc hrc4, fun _ => ?_⟩
                      simp only [relCount, countCapWrite_append] at *
                      omega
                    case pos =>
                      rw [if_neg (by simpa using hrc4)] at h
                      split at h
                      next rc5 s5 t5 hcw5 =>
                        have c5 := lockCounts_release d s4
                        rw [hcw5] at c5; simp only at c5
                        by_cases hrc5 : rc5 = 0
                        case neg =>
                          rw [if_pos hrc5] at h
                          obtain rfl := (Option.some.inj h).symm
                          refine ⟨fun hc => absurd hc hrc5, fun _ => ?_⟩
                          rw [if_neg hrc5] at c5
                          simp only [relCount, countCapWrite_append] at *
                          omega
                        case pos =>
                          rw [if_neg (by simpa using hrc5)] at h
                          obtain rfl := (Option.some.inj h).symm
                          refine ⟨fun _ => ⟨?_, ?_⟩, fun hc => absurd rfl hc⟩
                          · simp only [acqCount, countCapWrite_append] at *
                            omega
                          · rw [if_pos hrc5] at c5
                            simp only [relCount, countCapWrite_append] at *
                            omega

/-- Lock-write accounting for `trio_cr_gw_read`: one acquire and one
release on success; no release on any failure path. -/
theorem trio_cr_gw_read_lockCounts (d : PciDev) (fuel : Nat) (s : PciSt)
    (addr : Nat) (r : Except Int Nat × PciSt × List HwEvent)
    (h : trio_cr_gw_read d fuel s addr = some r) :
    (∀ v, r.1 = .ok v → acqCount r.2.2 = 1 ∧ relCount r.2.2 = 1) ∧
    (∀ e, r.1 = .error e → relCount r.2.2 = 0) := by
  unfold trio_cr_gw_read at h
  split at h
  next hacq => exact absurd h (by simp)
  next rc0 s0 t0 hacq =>
    have h0 := trio_cr_gw_lock_acquire_counts d fuel s _ hacq
    simp only at h0
    by_cases hrc0 : rc0 = 0
    case neg =>
      rw [if_pos hrc0] at h
      obtain rfl := (Option.some.inj h).symm
      exact ⟨fun v hv => absurd hv (by simp), fun e _ => h0.2⟩
    case pos =>
      rw [if_neg (by simpa using hrc0)] at h
      simp only [hrc0, if_pos] at h0
      split at h
      next rc1 s1 t1 hcw1 =>
        have c1 := lockCounts_cap_write_other d s0 TRIO_CR_GW_ADDR_LOWER addr
          (by decide) (by decide)
        rw [hcw1] at c1; simp only at c1
        by_cases hrc1 : rc1 = 0
        case neg =>
          rw [if_pos hrc1] at h
          obtain rfl := (Option.some.inj h).symm
          refine ⟨fun v hv => absurd hv (by simp), fun e _ => ?_⟩
          simp only [relCount, countCapWrite_append] at *
          omega
        case pos =>
          rw [if_neg (by simpa using hrc1)] at h
          split at h
          next rc2 s2 t2 hcw2 =>
            have c2 := lockCounts_cap_write_other d s1 TRIO_CR_GW_CTL
              TRIO_CR_GW_READ_4BYTE (by decide) (by decide)
            rw [hcw2] at c2; simp only at c2
            by_cases hrc2 : rc2 = 0
            case neg =>
              rw [if_pos hrc2] at h
              obtain rfl := (Option.some.inj h).symm
              refine ⟨fun v hv => absurd hv (by simp), fun e _ => ?_⟩
              simp only [relCount, countCapWrite_append] at *
              omega
            case pos =>
              rw [if_neg (by simpa using hrc2)] at h
              split at h
              next rc3 s3 t3 hcw3 =>
                have c3 := lockCounts_cap_write_trigger d s2
                rw [hcw3] at c3; simp only at c3
                by_cases hrc3 : rc3 = 0
                case neg =>
                  rw [if_pos hrc3] at h
                  obtain rfl := (Option.some.inj h).symm
                  refine ⟨fun v hv => absurd hv (by simp), fun e _ => ?_⟩
                  simp only [relCount, countCapWrite_append] at *
                  omega
                case pos =>
                  rw [if_neg (by simpa using hrc3)] at h
                  split at h
                  next rc4 s4 t4 hcr4 =>
                    have c4 := lockCounts_cap_read d s3 TRIO_CR_GW_DATA_LOWER
                      (by decide)
                    rw [hcr4] at c4; simp only at c4
                    obtain rfl := (Option.some.inj h).symm
                    refine ⟨fun v hv => absurd hv (by simp), fun e _ => ?_⟩
                    simp only [relCount, countCapWrite_append] at *
                    omega
                  next v4 s4 t4 hcr4 =>
                    have c4 := lockCounts_cap_read d s3 TRIO_CR_GW_DATA_LOWER
                      (by decide)
                    rw [hcr4] at c4; simp only at c4
                    split at h
                    next rc5 s5 t5 hcw5 =>
                      have c5 := lockCounts_release d s4
                      rw [hcw5] at c5; simp only at c5
                      by_cases hrc5 : rc5 = 0
                      case neg =>
                        rw [if_pos hrc5] at h
                        obtain rfl := (Option.some.inj h).symm
                        refine ⟨fun v hv => absurd hv (by simp), fun e _ => ?_⟩
                        rw [if_neg hrc5] at c5
                        simp only [relCount, countCapWrite_append] at *
                        omega
                      case pos =>
                        rw [if_neg (by simpa using hrc5)] at h
                        obtain rfl := (Option.some.inj h).symm
                        refine ⟨fun v hv => ⟨?_, ?_⟩,
                          fun e he => absurd he (by simp)⟩
                        · simp only [acqCount, countCapWrite_append] at *
                          omega
                        · rw [if_pos hrc5] at c5
                          simp only [relCount, countCapWrite_append] at *
                          omega

/-- C1 counterexample: a gateway read on which the lock acquire succeeds
(exactly one acquire write is issued) but the next capability write fails;
the operation returns the error having issued zero release writes of the
lock register — refuting the claim that exactly one release is issued
before the operation returns even when an intermediate step fails. -/
theorem c1_lock_bracket_counterexample :
    ∃ r, trio_cr_gw_read c1FailDev 1 {} 0x1234 = some r ∧
      r.1 = .error (-1) ∧ acqCount r.2.2 = 1 ∧ relCount r.2.2 = 0 := by
  exact ⟨_, rfl, rfl, rfl, rfl⟩

/-- C1 (amended): for every gateway-mediated 32-bit read or write
operation, when the operation completes successfully exactly one release
write of the lock register is issued (paired with exactly one acquire
write); when an intermediate capability step fails, the operation
propagates the error without issuing a release write, leaving the lock
held. -/
theorem c1_lock_bracket (d : PciDev) (fuel : Nat) (s s' : PciSt)
    (addr addr' value : Nat)
    (p : Int × PciSt × List HwEvent) (q : Except Int Nat × PciSt × List HwEvent)
    (hw : trio_cr_gw_write d fuel s addr value = some p)
    (hr : trio_cr_gw_read d fuel s' addr' = some q) :
    (p.1 = 0 → acqCount p.2.2 = 1 ∧ relCount p.2.2 = 1) ∧
    (p.1 ≠ 0 → relCount p.2.2 = 0) ∧
    (∀ v, q.1 = .ok v → acqCount q.2.2 = 1 ∧ relCount q.2.2 = 1) ∧
    (∀ e, q.1 = .error e → relCount q.2.2 = 0) :=
  ⟨(trio_cr_gw_write_lockCounts d fuel s addr value p hw).1,
   (trio_cr_gw_write_lockCounts d fuel s addr value p hw).2,
   (trio_cr_gw_read_lockCounts d fuel s' addr' q hr).1,
   (trio_cr_gw_read_lockCounts d fuel s' addr' q hr).2⟩

/-- Witness for C1 (amended): on an always-succeeding device, a concrete
gateway write and read both complete with exactly one acquire and one
release. -/
theorem c1_lock_bracket_witness :
    ∃ p q, trio_cr_gw_write okDev 1 {} 0x1234 5 = some p ∧
      trio_cr_gw_read okDev 1 {} 0x1234 = some q ∧
      acqCount p.2.2 = 1 ∧ relCount p.2.2 = 1 ∧
      acqCount q.2.2 = 1 ∧ relCount q.2.2 = 1 := by
  refine ⟨_, _, rfl, rfl, ?_, ?_, ?_, ?_⟩
  · exact ((c1_lock_bracket okDev 1 {} {} 0x1234 0x1234 5 _ _ rfl rfl).1 rfl).1
  · exact ((c1_lock_bracket okDev 1 {} {} 0x1234 0x1234 5 _ _ rfl rfl).1 rfl).2
  · exact ((c1_lock_bracket okDev 1 {} {} 0x1234 0x1234 5 _ _ rfl rfl).2.2.1 0 rfl).1
  · exact ((c1_lock_bracket okDev 1 {} {} 0x1234 0x1234 5 _ _ rfl rfl).2.2.1 0 rfl).2

/-- C4 (code bug): the control-register value `0x80000000` has the PENDING
bit clear, so by the claim (and by the function's own comment, "Wait until
the RSH_BYTE_ACC_CTL pending bit is cleared") the wait loop should exit at
the first poll; but the source masks the value with `RSH_CHANNEL1_BASE +
RSH_BYTE_ACC_PENDING` — an address base added to a bit mask — so the loop
keeps spinning (still unfinished after 4 full poll iterations). -/
theorem c4_pending_wait_mask_bug :
    0x80000000 &&& RSH_BYTE_ACC_PENDING = 0 ∧
    0x80000000 &&& (RSH_CHANNEL1_BASE + RSH_BYTE_ACC_PENDING) ≠ 0 ∧
    rshim_byte_acc_pending_wait c4BugDev 4 {} = none := by
  exact ⟨by decide, by decide, rfl⟩

/-- C7: the widget 8-byte read issues exactly two gateway reads of the
widget read-data register, assembles the result with the first value read
(`v₁`) in bits 63..32 and the second (`v₂`) in bits 31..0, and returns the
`be64toh` conversion of the assembled value. -/
theorem c7_byte_acc_read_assembly (v₁ v₂ addr : Nat) :
    (rshim_byte_acc_read (c7ReadDev v₁ v₂) 1 {} addr).map
        (fun r => (r.1, r.2.2.countP (fun e => match e with
          | .gwRead a => a == RSH_CHANNEL1_BASE + RSH_BYTE_ACC_RDAT
          | _ => false))) =
      some (.ok (be64toh ((v₁ % 2 ^ 32) <<< 32 ||| v₂ % 2 ^ 32)), 2) := by
  simp [rshim_byte_acc_read, rshim_byte_acc_pending_wait, trio_cr_gw_read,
    trio_cr_gw_write, trio_cr_gw_lock_acquire, trio_cr_gw_lock_release,
    pci_cap_read, pci_cap_write, pci_write_long, pci_read_long, c7ReadDev, okDev,
    MELLANOX_ADDR, MELLANOX_DATA, MELLANOX_CAP_READ,
    TRIO_CR_GW_LOCK, TRIO_CR_GW_DATA_LOWER, TRIO_CR_GW_ADDR_LOWER, TRIO_CR_GW_CTL,
    TRIO_CR_GW_LOCK_ACQUIRED, TRIO_CR_GW_LOCK_RELEASE, TRIO_CR_GW_TRIGGER,
    TRIO_CR_GW_READ_4BYTE, TRIO_CR_GW_WRITE_4BYTE,
    RSH_CHANNEL1_BASE, RSH_BYTE_ACC_CTL, RSH_BYTE_ACC_ADDR, RSH_BYTE_ACC_WDAT,
    RSH_BYTE_ACC_RDAT, RSH_BYTE_ACC_PENDING, RSH_BYTE_ACC_SIZE,
    RSH_BYTE_ACC_READ_TRIGGER]

/-- C6: an 8-byte PCIe register write whose destination address is the
boot-FIFO data register bypasses the byte-access widget: the gateway-level
activity of the operation is exactly two 32-bit gateway writes to the
boot-FIFO bus address — the high 32-bit word of the (bus-order) value
first, then the low word — with no widget programming and no gateway
reads. -/
theorem c6_boot_fifo_bypass (s : PcieSt) (chan value : Nat)
    (hrsh : s.has_rshim = true) (h7 : s.write_count ≠ 7) :
    (rshim_pcie_write okDev 1 s chan RSH_BOOT_FIFO_DATA value).map
        (fun r => (r.1, r.2.2.filter (fun e => match e with
          | .gwWrite _ _ => true
          | .gwRead _ => true
          | _ => false))) =
      some (0,
       [.gwWrite ((RSH_BASE_ADDR + (RSH_BOOT_FIFO_DATA ||| chan <<< 16 % 2 ^ 32)) % 2 ^ 32)
          (be64toh value >>> 32 % 2 ^ 32),
        .gwWrite ((RSH_BASE_ADDR + (RSH_BOOT_FIFO_DATA ||| chan <<< 16 % 2 ^ 32)) % 2 ^ 32)
          (be64toh value % 2 ^ 32)]) := by
  simp [rshim_pcie_write, rshim_boot_fifo_write, trio_cr_gw_write,
    trio_cr_gw_lock_acquire, trio_cr_gw_lock_release,
    pci_cap_read, pci_cap_write, pci_write_long, pci_read_long, okDev,
    hrsh, h7,
    MELLANOX_ADDR, MELLANOX_DATA, MELLANOX_CAP_READ,
    TRIO_CR_GW_LOCK, TRIO_CR_GW_DATA_LOWER, TRIO_CR_GW_ADDR_LOWER, TRIO_CR_GW_CTL,
    TRIO_CR_GW_LOCK_ACQUIRED, TRIO_CR_GW_LOCK_RELEASE, TRIO_CR_GW_TRIGGER,
    TRIO_CR_GW_READ_4BYTE, TRIO_CR_GW_WRITE_4BYTE,
    RSH_BASE_ADDR, RSH_BOOT_FIFO_DATA]

/-- Witness for C6: a concrete boot-FIFO write from a fresh backend. -/
theorem c6_boot_fifo_bypass_witness :
    (rshim_pcie_write okDev 1 {} 1 RSH_BOOT_FIFO_DATA 0x0102030405060708).map
        (fun r => (r.1, r.2.2.filter (fun e => match e with
          | .gwWrite _ _ => true
          | .gwRead _ => true
          | _ => false))) =
      some (0,
       [.gwWrite ((RSH_BASE_ADDR + (RSH_BOOT_FIFO_DATA ||| 1 <<< 16 % 2 ^ 32)) % 2 ^ 32)
          (be64toh 0x0102030405060708 >>> 32 % 2 ^ 32),
        .gwWrite ((RSH_BASE_ADDR + (RSH_BOOT_FIFO_DATA ||| 1 <<< 16 % 2 ^ 32)) % 2 ^ 32)
          (be64toh 0x0102030405060708 % 2 ^ 32)]) :=
  c6_boot_fifo_bypass {} 1 0x0102030405060708 rfl (by decide)

theorem pcie_read_step_eval (s : PcieSt) (chan addr : Nat)
    (hrsh : s.has_rshim = true) :
    (rshim_pcie_read okDev 1 s chan addr).map
        (fun r => (r.2.1.has_rshim, r.2.1.write_count)) = some (true, 0) := by
  simp [rshim_pcie_read, rshim_byte_acc_read, rshim_byte_acc_pending_wait,
    trio_cr_gw_read, trio_cr_gw_write, trio_cr_gw_lock_acquire,
    trio_cr_gw_lock_release, pci_cap_read, pci_cap_write, pci_write_long,
    pci_read_long, okDev, hrsh,
    MELLANOX_ADDR, MELLANOX_DATA, MELLANOX_CAP_READ,
    TRIO_CR_GW_LOCK, TRIO_CR_GW_DATA_LOWER, TRIO_CR_GW_ADDR_LOWER, TRIO_CR_GW_CTL,
    TRIO_CR_GW_LOCK_ACQUIRED, TRIO_CR_GW_LOCK_RELEASE, TRIO_CR_GW_TRIGGER,
    TRIO_CR_GW_READ_4BYTE, TRIO_CR_GW_WRITE_4BYTE,
    RSH_CHANNEL1_BASE, RSH_BYTE_ACC_CTL, RSH_BYTE_ACC_ADDR, RSH_BYTE_ACC_WDAT,
    RSH_BYTE_ACC_RDAT, RSH_BYTE_ACC_PENDING, RSH_BYTE_ACC_SIZE,
    RSH_BYTE_ACC_READ_TRIGGER]

theorem pcie_write_step_eval_no_drain (s : PcieSt) (chan addr value : Nat)
    (hrsh : s.has_rshim = true) (h7 : s.write_count ≠ 7) :
    (rshim_pcie_write okDev 1 s chan addr value).map
        (fun r => (r.2.1.has_rshim, r.2.1.write_count, hasDrainRead r.2.2)) =
      some (true, (s.write_count + 1) % 256, false) := by
  by_cases hb : addr = RSH_BOOT_FIFO_DATA <;>
    simp only [RSH_BOOT_FIFO_DATA] at hb <;>
    simp [rshim_pcie_write, rshim_boot_fifo_write, rshim_byte_acc_write,
      rshim_byte_acc_pending_wait, trio_cr_gw_read, trio_cr_gw_write,
      trio_cr_gw_lock_acquire, trio_cr_gw_lock_release, pci_cap_read,
      pci_cap_write, pci_write_long, pci_read_long, okDev, hasDrainRead,
      hrsh, h7, hb,
      MELLANOX_ADDR, MELLANOX_DATA, MELLANOX_CAP_READ,
      TRIO_CR_GW_LOCK, TRIO_CR_GW_DATA_LOWER, TRIO_CR_GW_ADDR_LOWER,
      TRIO_CR_GW_CTL, TRIO_CR_GW_LOCK_ACQUIRED, TRIO_CR_GW_LOCK_RELEASE,
      TRIO_CR_GW_TRIGGER, TRIO_CR_GW_READ_4BYTE, TRIO_CR_GW_WRITE_4BYTE,
      RSH_BASE_ADDR, RSH_BOOT_FIFO_DATA,
      RSH_CHANNEL1_BASE, RSH_BYTE_ACC_CTL, RSH_BYTE_ACC_ADDR, RSH_BYTE_ACC_WDAT,
      RSH_BYTE_ACC_RDAT, RSH_BYTE_ACC_PENDING, RSH_BYTE_ACC_SIZE,
      RSH_BYTE_ACC_READ_TRIGGER]

theorem pcie_write_step_eval_drain (s : PcieSt) (chan addr value : Nat)
    (hrsh : s.has_rshim = true) (h7 : s.write_count = 7) :
    (rshim_pcie_write okDev 1 s chan addr value).map
        (fun r => (r.2.1.has_rshim, r.2.1.write_count, hasDrainRead r.2.2)) =
      some (true, 1, true) := by
  by_cases hb : addr = RSH_BOOT_FIFO_DATA <;>
    simp only [RSH_BOOT_FIFO_DATA] at hb <;>
    simp [rshim_pcie_write, rshim_pcie_read, rshim_boot_fifo_write,
      rshim_byte_acc_write, rshim_byte_acc_read, rshim_byte_acc_pending_wait,
      trio_cr_gw_read, trio_cr_gw_write,
      trio_cr_gw_lock_acquire, trio_cr_gw_lock_release, pci_cap_read,
      pci_cap_write, pci_write_long, pci_read_long, okDev, hasDrainRead,
      hrsh, h7, hb,
      MELLANOX_ADDR, MELLANOX_DATA, MELLANOX_CAP_READ,
      TRIO_CR_GW_LOCK, TRIO_CR_GW_DATA_LOWER, TRIO_CR_GW_ADDR_LOWER,
      TRIO_CR_GW_CTL, TRIO_CR_GW_LOCK_ACQUIRED, TRIO_CR_GW_LOCK_RELEASE,
      TRIO_CR_GW_TRIGGER, TRIO_CR_GW_READ_4BYTE, TRIO_CR_GW_WRITE_4BYTE,
      RSH_BASE_ADDR, RSH_BOOT_FIFO_DATA, RSH_SCRATCHPAD,
      RSH_CHANNEL1_BASE, RSH_BYTE_ACC_CTL, RSH_BYTE_ACC_ADDR, RSH_BYTE_ACC_WDAT,
      RSH_BYTE_ACC_RDAT, RSH_BYTE_ACC_PENDING, RSH_BYTE_ACC_SIZE,
      RSH_BYTE_ACC_READ_TRIGGER]

/-- Single-step characterization of `pcieStep`: the backend flag is
preserved, a read resets the write counter, and a write drains exactly
when the counter is at the threshold. -/
theorem pcieStep_some (s : PcieSt) (op : PcieOp) (s' : PcieSt) (t : List HwEvent)
    (hrsh : s.has_rshim = true) (hstep : pcieStep s op = some (s', t)) :
    s'.has_rshim = true ∧
    (op.isWr = false → s'.write_count = 0) ∧
    (op.isWr = true →
      (s.write_count = 7 → s'.write_count = 1 ∧ hasDrainRead t = true) ∧
      (s.write_count ≠ 7 → s'.write_count = (s.write_count + 1) % 256 ∧
        hasDrainRead t = false)) := by
  cases op with
  | rd chan addr =>
    rcases Option.map_eq_some'.mp hstep with ⟨r, hr, hproj⟩
    have heval := pcie_read_step_eval s chan addr hrsh
    rw [hr] at heval
    simp only [Option.map_some', Option.some.injEq, Prod.mk.injEq] at heval hproj
    refine ⟨?_, fun _ => ?_, fun hc => by simp [PcieOp.isWr] at hc⟩
    · rw [← hproj.1, heval.1]
    · rw [← hproj.1, heval.2]
  | wr chan addr value =>
    rcases Option.map_eq_some'.mp hstep with ⟨r, hr, hproj⟩
    simp only [Option.some.injEq, Prod.mk.injEq] at hproj
    refine ⟨?_, fun hc => by simp [PcieOp.isWr] at hc, fun _ => ⟨fun h7 => ?_, fun h7 => ?_⟩⟩
    · by_cases h7 : s.write_count = 7
      · have heval := pcie_write_step_eval_drain s chan addr value hrsh h7
        rw [hr] at heval
        simp only [Option.map_some', Option.some.injEq, Prod.mk.injEq] at heval
        rw [← hproj.1, heval.1]
      · have heval := pcie_write_step_eval_no_drain s chan addr value hrsh h7
        rw [hr] at heval
        simp only [Option.map_some', Option.some.injEq, Prod.mk.injEq] at heval
        rw [← hproj.1, heval.1]
    · have heval := pcie_write_step_eval_drain s chan addr value hrsh h7
      rw [hr] at heval
      simp only [Option.map_some', Option.some.injEq, Prod.mk.injEq] at heval
      exact ⟨by rw [← hproj.1, heval.2.1], by rw [← hproj.2, heval.2.2]⟩
    · have heval := pcie_write_step_eval_no_drain s chan addr value hrsh h7
      rw [hr] at heval
      simp only [Option.map_some', Option.some.injEq, Prod.mk.injEq] at heval
      exact ⟨by rw [← hproj.1, heval.2.1], by rw [← hproj.2, heval.2.2]⟩

/-- A completed run is made of sound entries: each entry records a real
step, consecutive entries are chained post-to-pre, and the first entry
starts from the initial state. -/
theorem pcieRun_sound (ops : List PcieOp) :
    ∀ (s : PcieSt) (l : List RunEntry), pcieRun s ops = some l →
      (∀ e ∈ l, pcieStep e.pre e.op = some (e.post, e.seg)) ∧
      List.Chain' (fun a b => a.post = b.pre) l ∧
      (∀ e, l.head? = some e → e.pre = s) := by
  induction ops with
  | nil =>
    intro s l h
    simp only [pcieRun, Option.some.injEq] at h
    subst h
    simp
  | cons op ops ih =>
    intro s l h
    rw [pcieRun] at h
    split at h
    next => exact absurd h (by simp)
    next s' t hstep =>
      rcases Option.map_eq_some'.mp h with ⟨l', hl', rfl⟩
      obtain ⟨hsound, hchain, hhead⟩ := ih s' l' hl'
      refine ⟨?_, ?_, ?_⟩
      · intro e he
        rcases List.mem_cons.mp he with rfl | he'
        · exact hstep
        · exact hsound e he'
      · rw [List.chain'_cons']
        exact ⟨fun b hb => (hhead b hb).symm, hchain⟩
      · intro e he
        simp only [List.head?_cons, Option.some.injEq] at he
        subst he
        rfl

/-- Along any run started with the backend present and the counter within
bounds, every entry keeps the backend flag and keeps the counter at or
below 7. -/
theorem pcieRun_invariant (ops : List PcieOp) :
    ∀ (s : PcieSt) (l : List RunEntry), s.has_rshim = true →
      s.write_count ≤ 7 → pcieRun s ops = some l →
      ∀ e ∈ l, e.pre.has_rshim = true ∧ e.pre.write_count ≤ 7 ∧
        e.post.has_rshim = true ∧ e.post.write_count ≤ 7 := by
  induction ops with
  | nil =>
    intro s l _ _ h
    simp only [pcieRun, Option.some.injEq] at h
    subst h
    simp
  | cons op ops ih =>
    intro s l hrsh hwc h
    rw [pcieRun] at h
    split at h
    next => exact absurd h (by simp)
    next s' t hstep =>
      rcases Option.map_eq_some'.mp h with ⟨l', hl', rfl⟩
      obtain ⟨hrsh', hrd, hwr⟩ := pcieStep_some s op s' t hrsh hstep
      have hwc' : s'.write_count ≤ 7 := by
        cases hob : op.isWr with
        | false => rw [hrd hob]; omega
        | true =>
          by_cases h7 : s.write_count = 7
          · rw [((hwr hob).1 h7).1]; omega
          · rw [((hwr hob).2 h7).1, Nat.mod_eq_of_lt (by omega)]; omega
      intro e he
      rcases List.mem_cons.mp he with rfl | he'
      · exact ⟨hrsh, hwc, hrsh', hwc'⟩
      · exact ih s' l' hrsh' hwc' hl' e he'

/-- Arithmetic core of the throttle bound: a chained block of write
entries in which every entry increments the counter by one and starts at
or below 6 cannot be longer than `7 - initial counter`. -/
theorem chained_incr_bound :
    ∀ (w : List RunEntry) (e : RunEntry),
      List.Chain' (fun a b => a.post = b.pre) (e :: w) →
      (∀ x ∈ e :: w, x.post.write_count = x.pre.write_count + 1 ∧
        x.pre.write_count ≤ 6) →
      (e :: w).length + e.pre.write_count ≤ 7 := by
  intro w
  induction w with
  | nil =>
    intro e _ hall
    have := hall e (by simp)
    simp only [List.length_cons, List.length_nil]
    omega
  | cons f w ih =>
    intro e hchain hall
    have hef : e.post = f.pre := (List.chain'_cons.mp hchain).1
    have he := hall e (by simp)
    have htail : List.Chain' (fun a b => a.post = b.pre) (f :: w) :=
      (List.chain'_cons.mp hchain).2
    have hall' : ∀ x ∈ f :: w, x.post.write_count = x.pre.write_count + 1 ∧
        x.pre.write_count ≤ 6 := by
      intro x hx
      exact hall x (by simp [hx, List.mem_cons])
    have hb := ih f htail hall'
    have : f.pre.write_count = e.pre.write_count + 1 := by
      rw [← hef, he.1]
    simp only [List.length_cons] at *
    omega

/-- C3 (amended): along any sequence of PCIe register operations started
with the write counter within bounds, (i) the per-backend write counter
never exceeds 7; (ii) a register write performs the forced drain (the
dummy widget read of the scratch register) exactly when its pre-state
counter is at the threshold 7, and the counter is then reset (continuing
at 1, counting the current write); (iii) every register read resets the
counter to 0; and (iv) every block of 8 consecutive writes with no
intervening read contains at least one forced drain.  (The claim's "at
least once every 7 consecutive writes" is off by one — see the
counterexample: 7 consecutive writes from a fresh counter drain
nothing.) -/
theorem c3_write_throttle (ops : List PcieOp) (s : PcieSt) (l : List RunEntry)
    (hrsh : s.has_rshim = true) (hwc : s.write_count ≤ 7)
    (hrun : pcieRun s ops = some l) :
    (∀ e ∈ l, e.pre.write_count ≤ 7 ∧ e.post.write_count ≤ 7) ∧
    (∀ e ∈ l, e.op.isWr = true →
      (hasDrainRead e.seg = true ↔ e.pre.write_count = 7) ∧
      (e.pre.write_count = 7 → e.post.write_count = 1)) ∧
    (∀ e ∈ l, e.op.isWr = false → e.post.write_count = 0) ∧
    (∀ l₁ w l₂, l = l₁ ++ w ++ l₂ → w.length = 8 →
      (∀ e ∈ w, e.op.isWr = true) → ∃ e ∈ w, hasDrainRead e.seg = true) := by
  obtain ⟨hsound, hchain, -⟩ := pcieRun_sound ops s l hrun
  have hinv := pcieRun_invariant ops s l hrsh hwc hrun
  refine ⟨fun e he => ⟨(hinv e he).2.1, (hinv e he).2.2.2⟩, ?_, ?_, ?_⟩
  · intro e he hw
    obtain ⟨-, -, hwr⟩ :=
      pcieStep_some e.pre e.op e.post e.seg (hinv e he).1 (hsound e he)
    refine ⟨⟨?_, fun h7 => ((hwr hw).1 h7).2⟩, fun h7 => ((hwr hw).1 h7).1⟩
    intro hd
    by_contra h7
    rw [((hwr hw).2 h7).2] at hd
    exact absurd hd (by simp)
  · intro e he hr
    obtain ⟨-, hrd, -⟩ :=
      pcieStep_some e.pre e.op e.post e.seg (hinv e he).1 (hsound e he)
    exact hrd hr
  · intro l₁ w l₂ hsplit hlen hww
    by_contra hnone
    push_neg at hnone
    have hmem : ∀ e ∈ w, e ∈ l := by
      intro e he
      rw [hsplit]
      simp [List.mem_append, he]
    have hP : ∀ e ∈ w, e.post.write_count = e.pre.write_count + 1 ∧
        e.pre.write_count ≤ 6 := by
      intro e he
      have hel := hmem e he
      obtain ⟨-, -, hwr⟩ :=
        pcieStep_some e.pre e.op e.post e.seg (hinv e hel).1 (hsound e hel)
      have h7 : e.pre.write_count ≠ 7 := by
        intro h7
        exact hnone e he (((hwr (hww e he)).1 h7).2)
      have hle := (hinv e hel).2.1
      have hstep := (hwr (hww e he)).2 h7
      refine ⟨?_, by omega⟩
      rw [hstep.1, Nat.mod_eq_of_lt (by omega)]
    have hchw : List.Chain' (fun a b => a.post = b.pre) w := by
      rw [hsplit] at hchain
      exact (List.chain'_append.mp (List.chain'_append.mp hchain).1).2.1
    cases w with
    | nil => simp at hlen
    | cons e w' =>
      have hb := chained_incr_bound w' e hchw hP
      simp only [List.length_cons] at hb hlen
      omega

set_option maxHeartbeats 2000000 in
set_option maxRecDepth 8000 in
/-- C3 counterexample: seven consecutive 8-byte register writes from a
fresh backend (write counter 0) complete without a single forced drain —
refuting the claim that a forced drain occurs at least once every 7
consecutive writes without an intervening read. -/
theorem c3_write_throttle_counterexample :
    ∃ l, pcieRun {} (List.replicate 7 (.wr 0 0x30 1)) = some l ∧
      l.length = 7 ∧ (∀ e ∈ l, e.op.isWr = true) ∧
      ∀ e ∈ l, hasDrainRead e.seg = false := by
  refine ⟨_, rfl, rfl, by decide, by decide⟩

set_option maxHeartbeats 2000000 in
set_option maxRecDepth 8000 in
/-- Witness for C3 (amended): on the run of 8 consecutive writes from a
fresh backend, the window property yields a drain (it occurs on the 8th
write, whose pre-state counter is 7). -/
theorem c3_write_throttle_witness :
    ∃ l, pcieRun {} (List.replicate 8 (.wr 0 0x30 1)) = some l ∧
      ∃ e ∈ l, hasDrainRead e.seg = true := by
  refine ⟨_, rfl, ?_⟩
  exact (c3_write_throttle (List.replicate 8 (.wr 0 0x30 1)) {} _ rfl
      (by decide) rfl).2.2.2 [] _ [] (by simp) (by decide) (by decide)

/-- C2 (code bug): for a transient completion status
(`LIBUSB_TRANSFER_TIMED_OUT`) with zero transferred bytes, the engine
resubmits the same transfer and increments the per-direction retry
counter while the counter is below the ceiling 5 — and no path with a
successful resubmission emits a notification; at the ceiling (the 6th
consecutive transient zero-length failure) the completion is dropped
silently — no FIFO-error notification, no resubmission — because the
`switch` falls through into `case LIBUSB_TRANSFER_CANCELLED: break;`
instead of the `default` case whose own comment ("or we got too many
errors … we signal the error to upper layers") says it should signal. -/
theorem c2_retry_ceiling_silent_drop : ∀ r : Nat,
    (rshim_usb_fifo_read_callback { read_or_intr_retries := r }
        ⟨LIBUSB_TRANSFER_TIMED_OUT, 0⟩ 0).notifications = [] ∧
    (rshim_usb_fifo_read_callback { read_or_intr_retries := r }
        ⟨LIBUSB_TRANSFER_TIMED_OUT, 0⟩ 0).submits = (if r < 5 then 1 else 0) ∧
    (rshim_usb_fifo_read_callback { read_or_intr_retries := r }
        ⟨LIBUSB_TRANSFER_TIMED_OUT, 0⟩ 0).st.read_or_intr_retries =
      (if r < 5 then r + 1 else r) ∧
    (rshim_usb_fifo_write_callback { write_retries := r }
        ⟨LIBUSB_TRANSFER_TIMED_OUT, 0⟩ 0).notifications = [] ∧
    (rshim_usb_fifo_write_callback { write_retries := r }
        ⟨LIBUSB_TRANSFER_TIMED_OUT, 0⟩ 0).submits = (if r < 5 then 1 else 0) := by
  intro r
  by_cases hr : r < 5 <;>
    simp [rshim_usb_fifo_read_callback, rshim_usb_fifo_write_callback,
      READ_RETRIES, WRITE_RETRIES, hr,
      LIBUSB_TRANSFER_COMPLETED, LIBUSB_TRANSFER_NO_DEVICE,
      LIBUSB_TRANSFER_TIMED_OUT, LIBUSB_TRANSFER_STALL,
      LIBUSB_TRANSFER_OVERFLOW, LIBUSB_TRANSFER_CANCELLED]

/-- C5: a USB register read or write whose control transfer completes with
a byte count different from 8 yields the distinguished malformed-response
codes — `-EINVAL` for a long transfer, `-ENXIO` for a short one — which
are distinct from each other and from success, while library-level errors
(negative libusb return) are passed through unchanged. -/
theorem c5_malformed_response_codes (rc : Int) (wire value : Nat) :
    (0 ≤ rc → rc ≠ 8 →
      (rshim_usb_read_rshim true rc wire).1 =
        (if 8 < rc then -EINVAL else - ENXIO) ∧
      (rshim_usb_write_rshim true value rc).1 =
        (if 8 < rc then -EINVAL else - ENXIO)) ∧
    (rc < 0 →
      (rshim_usb_read_rshim true rc wire).1 = rc ∧
      (rshim_usb_write_rshim true value rc).1 = rc) ∧
    (-EINVAL : Int) ≠ - ENXIO ∧ (-EINVAL : Int) ≠ 0 ∧ (- ENXIO : Int) ≠ 0 := by
  refine ⟨fun h0 h8 => ?_, fun hneg => ?_, by decide, by decide, by decide⟩
  · constructor <;>
      simp [rshim_usb_read_rshim, rshim_usb_write_rshim, h0, h8]
  · have h8 : rc ≠ 8 := by omega
    have h0 : ¬ 0 ≤ rc := by omega
    constructor <;>
      simp [rshim_usb_read_rshim, rshim_usb_write_rshim, h8, h0]

/-- Witness for C5: a short read (4 bytes) yields `-ENXIO`, a long read
(12 bytes) yields `-EINVAL`, and a library timeout error passes
through. -/
theorem c5_malformed_response_codes_witness :
    (rshim_usb_read_rshim true 4 0).1 = - ENXIO ∧
    (rshim_usb_read_rshim true 12 0).1 = -EINVAL ∧
    (rshim_usb_write_rshim true 0 (-7)).1 = -7 := by
  refine ⟨?_, ?_, ?_⟩
  · have h := ((c5_malformed_response_codes 4 0 0).1 (by decide) (by decide)).1
    simpa using h
  · have h := ((c5_malformed_response_codes 12 0 0).1 (by decide) (by decide)).1
    simpa using h
  · exact ((c5_malformed_response_codes (-7) 0 0).2.1 (by decide)).2

/-- C9: a TMFIFO stream read submission always returns 0 to the caller
and performs no notification; when the guards pass (so a submission was
actually attempted) and the underlying submission fails, the only effect
is that the READING flag ends up clear. -/
theorem c9_backend_read_swallows_submit_error (s : UsbSt) (count : Nat)
    (submitRc : Int) :
    (rshim_usb_backend_read s .tmfifo count submitRc).1 = 0 ∧
    (rshim_usb_backend_read s .tmfifo count submitRc).2.2.2 = [] ∧
    (s.has_rshim = true → s.has_tm = true → s.drop_mode = false →
      submitRc ≠ 0 →
      (rshim_usb_backend_read s .tmfifo count submitRc).2.1.reading = false) := by
  refine ⟨?_, ?_, fun h1 h2 h3 h4 => ?_⟩
  · rfl
  · by_cases hg : (!s.has_rshim || !s.has_tm || s.drop_mode) = true <;>
      by_cases hi : s.intr_buf ≠ 0 ∨ s.read_buf_bytes ≠ 0 <;>
      by_cases hs : submitRc ≠ 0 <;>
      simp [rshim_usb_backend_read, rshim_usb_fifo_read, hg, hi, hs]
  · by_cases hi : s.intr_buf ≠ 0 ∨ s.read_buf_bytes ≠ 0 <;>
      simp [rshim_usb_backend_read, rshim_usb_fifo_read, h1, h2, h3, h4, hi]

/-- Witness for C9: a concrete failed read submission returns 0 with the
READING flag clear. -/
theorem c9_backend_read_swallows_submit_error_witness :
    (rshim_usb_backend_read {} .tmfifo 8 (-1)).1 = 0 ∧
    (rshim_usb_backend_read {} .tmfifo 8 (-1)).2.1.reading = false :=
  ⟨(c9_backend_read_swallows_submit_error {} 8 (-1)).1,
   (c9_backend_read_swallows_submit_error {} 8 (-1)).2.2 rfl rfl rfl
     (by decide)⟩

/-- C10: a boot-image bulk write that completes successfully or with a
timeout status returns the number of bytes actually transferred (whatever
it is, including 0 or a partial count); any other library error is
returned as the (negative) error code. -/
theorem c10_boot_write_returns_transferred (count : Nat) (rc t : Int) :
    ((rc = 0 ∨ rc = LIBUSB_ERROR_TIMEOUT) →
      rshim_usb_boot_write count rc t = t) ∧
    (rc ≠ 0 → rc ≠ LIBUSB_ERROR_TIMEOUT →
      rshim_usb_boot_write count rc t = rc) := by
  unfold rshim_usb_boot_write
  constructor
  · intro h
    rw [if_pos h]
  · intro h1 h2
    rw [if_neg (by tauto)]

/-- Witness for C10: a timed-out partial transfer returns the partial
count, a success returns the full count, and a non-timeout error returns
the error code. -/
theorem c10_boot_write_returns_transferred_witness :
    rshim_usb_boot_write 16 LIBUSB_ERROR_TIMEOUT 8 = 8 ∧
    rshim_usb_boot_write 16 0 16 = 16 ∧
    rshim_usb_boot_write 16 (-4) 0 = -4 :=
  ⟨(c10_boot_write_returns_transferred 16 LIBUSB_ERROR_TIMEOUT 8).1 (Or.inr rfl),
   (c10_boot_write_returns_transferred 16 0 16).1 (Or.inl rfl),
   (c10_boot_write_returns_transferred 16 (-4) 0).2 (by decide) (by decide)⟩

/-- Flag effect of `rshim_usb_fifo_read` from a state with the READING
flag clear: the flag ends up set exactly when a submit call was made and
succeeded; the WRITING flag is untouched. -/
theorem fifo_read_reading_flag (s : UsbSt) (rc : Int) (h : s.reading = false) :
    ((rshim_usb_fifo_read s rc).1.reading = true ↔
      ((rshim_usb_fifo_read s rc).2.1 = 1 ∧ rc = 0)) ∧
    (rshim_usb_fifo_read s rc).1.writing = s.writing := by
  by_cases hg : (!s.has_rshim || !s.has_tm || s.drop_mode) = true
  · simp [rshim_usb_fifo_read, hg, h]
  · by_cases hi : s.intr_buf ≠ 0 ∨ s.read_buf_bytes ≠ 0 <;>
      by_cases hrc : rc = 0 <;>
      simp [rshim_usb_fifo_read, hg, hi, hrc]

/-- Flag effect of `rshim_usb_fifo_write` from a state with the WRITING
flag clear. -/
theorem fifo_write_writing_flag (s : UsbSt) (count : Nat) (rc : Int)
    (h : s.writing = false) :
    ((rshim_usb_fifo_write s count rc).2.1.writing = true ↔
      ((rshim_usb_fifo_write s count rc).2.2.1 = 1 ∧ rc = 0)) ∧
    (rshim_usb_fifo_write s count rc).2.1.reading = s.reading := by
  by_cases hg : (!s.has_rshim || !s.has_tm) = true
  · simp [rshim_usb_fifo_write, hg, h]
  · by_cases hd : s.drop_mode = true
    · simp [rshim_usb_fifo_write, hg, hd, h]
    · by_cases hrc : rc = 0 <;> simp [rshim_usb_fifo_write, hg, hd, hrc]

/-- Flag effect of the read completion callback: the READING flag ends up
set exactly when the callback resubmitted successfully; WRITING is
untouched. -/
theorem read_callback_reading_flag (s : UsbSt) (urb : Urb) (rc : Int) :
    ((rshim_usb_fifo_read_callback s urb rc).st.reading = true ↔
      ((rshim_usb_fifo_read_callback s urb rc).submits = 1 ∧ rc = 0)) ∧
    (rshim_usb_fifo_read_callback s urb rc).st.writing = s.writing := by
  by_cases hc : urb.status = (0 : Int)
  · by_cases hin : s.read_urb_is_intr <;>
      simp [rshim_usb_fifo_read_callback, hc, hin, LIBUSB_TRANSFER_COMPLETED, LIBUSB_TRANSFER_NO_DEVICE,
        LIBUSB_TRANSFER_TIMED_OUT, LIBUSB_TRANSFER_STALL,
        LIBUSB_TRANSFER_OVERFLOW, LIBUSB_TRANSFER_CANCELLED,
        READ_RETRIES, WRITE_RETRIES]
  · by_cases hn : urb.status = (5 : Int)
    · simp [rshim_usb_fifo_read_callback, hc, hn, LIBUSB_TRANSFER_COMPLETED, LIBUSB_TRANSFER_NO_DEVICE,
        LIBUSB_TRANSFER_TIMED_OUT, LIBUSB_TRANSFER_STALL,
        LIBUSB_TRANSFER_OVERFLOW, LIBUSB_TRANSFER_CANCELLED,
        READ_RETRIES, WRITE_RETRIES]
    · by_cases ht : urb.status = (2 : Int) ∨ urb.status = (4 : Int) ∨ urb.status = (6 : Int)
      · by_cases hret : s.read_or_intr_retries < 5 ∧ urb.actual_length = 0
        · by_cases hrc : rc ≠ 0 <;>
            simp [rshim_usb_fifo_read_callback, hc, hn, ht, hret, hrc, LIBUSB_TRANSFER_COMPLETED, LIBUSB_TRANSFER_NO_DEVICE,
        LIBUSB_TRANSFER_TIMED_OUT, LIBUSB_TRANSFER_STALL,
        LIBUSB_TRANSFER_OVERFLOW, LIBUSB_TRANSFER_CANCELLED,
        READ_RETRIES, WRITE_RETRIES]
          omega
        · simp [rshim_usb_fifo_read_callback, hc, hn, ht, hret, LIBUSB_TRANSFER_COMPLETED, LIBUSB_TRANSFER_NO_DEVICE,
        LIBUSB_TRANSFER_TIMED_OUT, LIBUSB_TRANSFER_STALL,
        LIBUSB_TRANSFER_OVERFLOW, LIBUSB_TRANSFER_CANCELLED,
        READ_RETRIES, WRITE_RETRIES]
      · by_cases hx : urb.status = (3 : Int) <;>
          simp [rshim_usb_fifo_read_callback, hc, hn, ht, hx, LIBUSB_TRANSFER_COMPLETED, LIBUSB_TRANSFER_NO_DEVICE,
        LIBUSB_TRANSFER_TIMED_OUT, LIBUSB_TRANSFER_STALL,
        LIBUSB_TRANSFER_OVERFLOW, LIBUSB_TRANSFER_CANCELLED,
        READ_RETRIES, WRITE_RETRIES]

/-- Flag effect of the write completion callback. -/
theorem write_callback_writing_flag (s : UsbSt) (urb : Urb) (rc : Int) :
    ((rshim_usb_fifo_write_callback s urb rc).st.writing = true ↔
      ((rshim_usb_fifo_write_callback s urb rc).submits = 1 ∧ rc = 0)) ∧
    (rshim_usb_fifo_write_callback s urb rc).st.reading = s.reading := by
  by_cases hc : urb.status = (0 : Int)
  · simp [rshim_usb_fifo_write_callback, hc, LIBUSB_TRANSFER_COMPLETED, LIBUSB_TRANSFER_NO_DEVICE,
        LIBUSB_TRANSFER_TIMED_OUT, LIBUSB_TRANSFER_STALL,
        LIBUSB_TRANSFER_OVERFLOW, LIBUSB_TRANSFER_CANCELLED,
        READ_RETRIES, WRITE_RETRIES]
  · by_cases hn : urb.status = (5 : Int)
    · simp [rshim_usb_fifo_write_callback, hc, hn, LIBUSB_TRANSFER_COMPLETED, LIBUSB_TRANSFER_NO_DEVICE,
        LIBUSB_TRANSFER_TIMED_OUT, LIBUSB_TRANSFER_STALL,
        LIBUSB_TRANSFER_OVERFLOW, LIBUSB_TRANSFER_CANCELLED,
        READ_RETRIES, WRITE_RETRIES]
    · by_cases ht : urb.status = (2 : Int) ∨ urb.status = (4 : Int) ∨ urb.status = (6 : Int)
      · by_cases hret : s.write_retries < 5 ∧ urb.actual_length = 0
        · by_cases hrc : rc ≠ 0 <;>
            simp [rshim_usb_fifo_write_callback, hc, hn, ht, hret, hrc, LIBUSB_TRANSFER_COMPLETED, LIBUSB_TRANSFER_NO_DEVICE,
        LIBUSB_TRANSFER_TIMED_OUT, LIBUSB_TRANSFER_STALL,
        LIBUSB_TRANSFER_OVERFLOW, LIBUSB_TRANSFER_CANCELLED,
        READ_RETRIES, WRITE_RETRIES]
          omega
        · simp [rshim_usb_fifo_write_callback, hc, hn, ht, hret, LIBUSB_TRANSFER_COMPLETED, LIBUSB_TRANSFER_NO_DEVICE,
        LIBUSB_TRANSFER_TIMED_OUT, LIBUSB_TRANSFER_STALL,
        LIBUSB_TRANSFER_OVERFLOW, LIBUSB_TRANSFER_CANCELLED,
        READ_RETRIES, WRITE_RETRIES]
      · by_cases hx : urb.status = (3 : Int) <;>
          simp [rshim_usb_fifo_write_callback, hc, hn, ht, hx, LIBUSB_TRANSFER_COMPLETED, LIBUSB_TRANSFER_NO_DEVICE,
        LIBUSB_TRANSFER_TIMED_OUT, LIBUSB_TRANSFER_STALL,
        LIBUSB_TRANSFER_OVERFLOW, LIBUSB_TRANSFER_CANCELLED,
        READ_RETRIES, WRITE_RETRIES]

/-- One valid step preserves the busy-flag invariant. -/
theorem sysStep_inv (s : SysSt) (op : UsbOp) (hI : UsbInv s)
    (hok : okOp s op) : UsbInv (sysStep s op) := by
  obtain ⟨h1, h2, h3, h4⟩ := hI
  cases op with
  | submitRead rc =>
    have hrd : s.usb.reading = false := hok
    have houtR : s.outR = 0 := by
      by_contra h
      have h1' : s.outR = 1 := by omega
      rw [h1.mpr h1'] at hrd
      exact absurd hrd (by simp)
    obtain ⟨hiff, hw⟩ := fifo_read_reading_flag s.usb rc hrd
    refine ⟨?_, ?_, ?_, ?_⟩
    · show (rshim_usb_fifo_read s.usb rc).1.reading = true ↔
        s.outR + (if (rshim_usb_fifo_read s.usb rc).2.1 = 1 ∧ rc = 0
          then 1 else 0) = 1
      by_cases hsub : (rshim_usb_fifo_read s.usb rc).2.1 = 1 ∧ rc = 0
      · rw [if_pos hsub, houtR]
        simp [hiff.mpr hsub]
      · rw [if_neg hsub, houtR]
        simp [hiff, hsub]
    · show (rshim_usb_fifo_read s.usb rc).1.writing = true ↔ _
      rw [hw]
      exact h2
    · show s.outR + (if (rshim_usb_fifo_read s.usb rc).2.1 = 1 ∧ rc = 0
          then 1 else 0) ≤ 1
      by_cases hsub : (rshim_usb_fifo_read s.usb rc).2.1 = 1 ∧ rc = 0 <;>
        · first
          | rw [if_pos hsub, houtR]
          | rw [if_neg hsub, houtR]
          try omega
    · exact h4
  | submitWrite count rc =>
    have hwr : s.usb.writing = false := hok
    have houtW : s.outW = 0 := by
      by_contra h
      have h2' : s.outW = 1 := by omega
      rw [h2.mpr h2'] at hwr
      exact absurd hwr (by simp)
    obtain ⟨hiff, hr⟩ := fifo_write_writing_flag s.usb count rc hwr
    refine ⟨?_, ?_, ?_, ?_⟩
    · show (rshim_usb_fifo_write s.usb count rc).2.1.reading = true ↔ _
      rw [hr]
      exact h1
    · show (rshim_usb_fifo_write s.usb count rc).2.1.writing = true ↔
        s.outW + (if (rshim_usb_fifo_write s.usb count rc).2.2.1 = 1 ∧ rc = 0
          then 1 else 0) = 1
      by_cases hsub : (rshim_usb_fifo_write s.usb count rc).2.2.1 = 1 ∧ rc = 0
      · rw [if_pos hsub, houtW]
        simp [hiff.mpr hsub]
      · rw [if_neg hsub, houtW]
        simp [hiff, hsub]
    · exact h3
    · show s.outW + (if (rshim_usb_fifo_write s.usb count rc).2.2.1 = 1 ∧ rc = 0
          then 1 else 0) ≤ 1
      by_cases hsub : (rshim_usb_fifo_write s.usb count rc).2.2.1 = 1 ∧ rc = 0 <;>
        · first
          | rw [if_pos hsub, houtW]
          | rw [if_neg hsub, houtW]
          try omega
  | completeRead st len rc =>
    have houtR : s.outR = 1 := hok
    obtain ⟨hiff, hw⟩ := read_callback_reading_flag s.usb ⟨st, len⟩ rc
    refine ⟨?_, ?_, ?_, ?_⟩
    · show (rshim_usb_fifo_read_callback s.usb ⟨st, len⟩ rc).st.reading = true ↔
        s.outR - 1 + (if (rshim_usb_fifo_read_callback s.usb ⟨st, len⟩ rc).submits = 1 ∧
          rc = 0 then 1 else 0) = 1
      by_cases hsub : (rshim_usb_fifo_read_callback s.usb ⟨st, len⟩ rc).submits = 1 ∧
          rc = 0
      · rw [if_pos hsub, houtR]
        simp [hiff.mpr hsub]
      · rw [if_neg hsub, houtR]
        simp [hiff, hsub]
    · show (rshim_usb_fifo_read_callback s.usb ⟨st, len⟩ rc).st.writing = true ↔ _
      rw [hw]
      exact h2
    · show s.outR - 1 + (if (rshim_usb_fifo_read_callback s.usb ⟨st, len⟩ rc).submits = 1 ∧
          rc = 0 then 1 else 0) ≤ 1
      by_cases hsub : (rshim_usb_fifo_read_callback s.usb ⟨st, len⟩ rc).submits = 1 ∧
          rc = 0 <;>
        · first
          | rw [if_pos hsub, houtR]
          | rw [if_neg hsub, houtR]
          try omega
    · exact h4
  | completeWrite st len rc =>
    have houtW : s.outW = 1 := hok
    obtain ⟨hiff, hr⟩ := write_callback_writing_flag s.usb ⟨st, len⟩ rc
    refine ⟨?_, ?_, ?_, ?_⟩
    · show (rshim_usb_fifo_write_callback s.usb ⟨st, len⟩ rc).st.reading = true ↔ _
      rw [hr]
      exact h1
    · show (rshim_usb_fifo_write_callback s.usb ⟨st, len⟩ rc).st.writing = true ↔
        s.outW - 1 + (if (rshim_usb_fifo_write_callback s.usb ⟨st, len⟩ rc).submits = 1 ∧
          rc = 0 then 1 else 0) = 1
      by_cases hsub : (rshim_usb_fifo_write_callback s.usb ⟨st, len⟩ rc).submits = 1 ∧
          rc = 0
      · rw [if_pos hsub, houtW]
        simp [hiff.mpr hsub]
      · rw [if_neg hsub, houtW]
        simp [hiff, hsub]
    · exact h3
    · show s.outW - 1 + (if (rshim_usb_fifo_write_callback s.usb ⟨st, len⟩ rc).submits = 1 ∧
          rc = 0 then 1 else 0) ≤ 1
      by_cases hsub : (rshim_usb_fifo_write_callback s.usb ⟨st, len⟩ rc).submits = 1 ∧
          rc = 0 <;>
        · first
          | rw [if_pos hsub, houtW]
          | rw [if_neg hsub, houtW]
          try omega

/-- C8: along every valid trace of the stream engine (submissions only
with the direction's flag clear, completions only of in-flight
transfers), every reachable state — including every intermediate one —
has at most one outstanding read/interrupt transfer and at most one
outstanding write transfer, and the READING/WRITING spin flags are set
exactly when a transfer of that direction is outstanding. -/
theorem c8_busy_flag_invariant (ops : List UsbOp) :
    ∀ (s : SysSt), UsbInv s → ValidFrom s ops →
      ∀ p q, ops = p ++ q → UsbInv (sysRun s p) := by
  induction ops with
  | nil =>
    intro s hI _ p q hpq
    have hp : p = [] := by
      cases p with
      | nil => rfl
      | cons a l => exact absurd hpq (by simp)
    subst hp
    exact hI
  | cons op ops ih =>
    intro s hI hV p q hpq
    cases p with
    | nil => exact hI
    | cons p0 p' =>
      obtain ⟨hop, hops⟩ : op = p0 ∧ ops = p' ++ q := by
        constructor <;> [exact (List.cons.injEq _ _ _ _ ▸ hpq).1;
          exact (List.cons.injEq _ _ _ _ ▸ hpq).2]
      subst hop
      obtain ⟨hok, hV'⟩ := hV
      exact ih (sysStep s op) (sysStep_inv s op hI hok) hV' p' q hops

/-- Witness for C8: a concrete valid trace — submit a read, complete it,
submit a write, fail its submission, submit it again, complete it with a
timeout retry — keeps the invariant at its end state. -/
theorem c8_busy_flag_invariant_witness :
    UsbInv (sysRun ⟨{}, 0, 0⟩
      [.submitRead 0, .completeRead LIBUSB_TRANSFER_COMPLETED 16 0,
       .submitWrite 8 (-1), .submitWrite 8 0,
       .completeWrite LIBUSB_TRANSFER_TIMED_OUT 0 0,
       .completeWrite LIBUSB_TRANSFER_COMPLETED 8 0]) := by
  have h := c8_busy_flag_invariant
    [.submitRead 0, .completeRead LIBUSB_TRANSFER_COMPLETED 16 0,
     .submitWrite 8 (-1), .submitWrite 8 0,
     .completeWrite LIBUSB_TRANSFER_TIMED_OUT 0 0,
     .completeWrite LIBUSB_TRANSFER_COMPLETED 8 0]
    ⟨{}, 0, 0⟩ (by simp [UsbInv]) (by simp [ValidFrom, okOp, sysStep,
      rshim_usb_fifo_read, rshim_usb_fifo_write,
      rshim_usb_fifo_read_callback, rshim_usb_fifo_write_callback,
      LIBUSB_TRANSFER_COMPLETED, LIBUSB_TRANSFER_NO_DEVICE,
      LIBUSB_TRANSFER_TIMED_OUT, LIBUSB_TRANSFER_STALL,
      LIBUSB_TRANSFER_OVERFLOW, LIBUSB_TRANSFER_CANCELLED,
      READ_RETRIES, WRITE_RETRIES])
  exact h _ [] (by simp)

end Rshim
